import Mathlib

/-!
Verification development for the vibesafu permission-guard pipeline.

The definitions below are a shallow embedding of the TypeScript sources:
`src/guard/instant-allow.ts`, `src/guard/instant-block.ts` (high-risk
variant), `src/config/patterns.ts`, `src/config/domains.ts`,
`src/guard/checkpoint.ts`, `src/guard/trusted-domain.ts`,
`src/guard/file-tools.ts`, `src/utils/sanitize.ts`,
`src/guard/haiku-triage.ts`, `src/guard/sonnet-review.ts` and `src/hook.ts`.

JavaScript regular expressions are embedded as terms of a small `Re`
syntax together with a fuelled backtracking matcher `reTest` that decides
whether a regex matches anywhere in a string (the semantics of
`RegExp.prototype.test`).  Pure string transformations (`trim`, `replace`
with a fixed pattern) are embedded as direct structural recursions on
`List Char`.
-/

/-- Characters treated as whitespace by the JavaScript `\s` class and by
`String.prototype.trim` (ASCII part plus NBSP and BOM, which suffice for
the command strings the guard handles). -/
def isJsWs (c : Char) : Bool :=
  c == ' ' || c == '\t' || c == '\n' || c == '\r' ||
  c == Char.ofNat 0x0b || c == Char.ofNat 0x0c ||
  c == Char.ofNat 0xa0 || c == Char.ofNat 0xfeff

/-- Word characters of the JavaScript `\w` class: `[A-Za-z0-9_]`. -/
def isWordCh (c : Char) : Bool :=
  ('a' ≤ c && c ≤ 'z') || ('A' ≤ c && c ≤ 'Z') || ('0' ≤ c && c ≤ '9') || c == '_'

/-- Drop trailing characters satisfying `p` (helper for `trim` and for the
URL trailing-punctuation strip). -/
def dropRightWhileL (p : Char → Bool) (l : List Char) : List Char :=
  (l.reverse.dropWhile p).reverse

/-- JavaScript `String.prototype.trim` on a character list. -/
def jsTrimL (l : List Char) : List Char :=
  dropRightWhileL isJsWs (l.dropWhile isJsWs)

/-- JavaScript `String.prototype.trim`. -/
def jsTrim (s : String) : String :=
  ⟨jsTrimL s.data⟩

/-- ASCII lower-casing of a string (JavaScript `toLowerCase` restricted to
the ASCII range used by the guard). -/
def toLowerStr (s : String) : String :=
  ⟨s.data.map Char.toLower⟩

/-!
A small regular-expression syntax.  Each JavaScript regex literal of the
sources is transliterated into a `Re` term; `reTest r s` plays the role of
`/r/.test(s)`.
-/

/-- Abstract syntax of the regular-expression fragment used by the guard:
character classes, concatenation, alternation, Kleene star, the anchors
`^` and `$`, the word boundary `\b`, and negative lookahead `(?! )`. -/
inductive Re where
  | eps : Re
  | cls : (Char → Bool) → Re
  | cat : Re → Re → Re
  | alt : Re → Re → Re
  | star : Re → Re
  | bos : Re
  | eos : Re
  | wordB : Re
  | nla : Re → Re

/-- Structural size of a regex, used to bound the matcher fuel. -/
def reSize : Re → Nat
  | .eps => 1
  | .cls _ => 1
  | .cat r1 r2 => reSize r1 + reSize r2 + 1
  | .alt r1 r2 => reSize r1 + reSize r2 + 1
  | .star r => reSize r + 1
  | .bos => 1
  | .eos => 1
  | .wordB => 1
  | .nla r => reSize r + 1

/-- Word-boundary test between the previously consumed character `p`
(`none` at the start of the string) and the rest of the input. -/
def isWordBoundary (p : Option Char) (s : List Char) : Bool :=
  let pw := match p with | some c => isWordCh c | none => false
  let nw := match s with | c :: _ => isWordCh c | [] => false
  pw != nw

/-- Backtracking matcher.  A state is the previously consumed character
together with the remaining input; `runRe` returns every state reachable
by matching `r` at the current position.  The fuel (first argument)
bounds the recursion depth; star iterations are forced to consume input,
so a fuel proportional to input length times regex size is exhaustive. -/
def runRe : Nat → Re → Option Char → List Char → List (Option Char × List Char)
  | 0, _, _, _ => []
  | _ + 1, .eps, p, s => [(p, s)]
  | _ + 1, .cls _, _, [] => []
  | _ + 1, .cls f, _, c :: rest => if f c then [(some c, rest)] else []
  | fuel + 1, .cat r1 r2, p, s =>
      (runRe fuel r1 p s).flatMap fun st => runRe fuel r2 st.1 st.2
  | fuel + 1, .alt r1 r2, p, s => runRe fuel r1 p s ++ runRe fuel r2 p s
  | fuel + 1, .star r, p, s =>
      (p, s) :: ((runRe fuel r p s).filter fun st => st.2.length < s.length).flatMap
        fun st => runRe fuel (.star r) st.1 st.2
  | _ + 1, .bos, p, s => if p.isNone then [(p, s)] else []
  | _ + 1, .eos, p, s => if s.isEmpty then [(p, s)] else []
  | _ + 1, .wordB, p, s => if isWordBoundary p s then [(p, s)] else []
  | fuel + 1, .nla r, p, s => if (runRe fuel r p s).isEmpty then [(p, s)] else []

/-- Fuel large enough for an exhaustive search of `r` on input `s`. -/
def reFuel (r : Re) (s : List Char) : Nat :=
  (s.length + 3) * (reSize r + 3)

/-- Try to match `r` at the current position and, failing that, at every
later position of the input — the search performed by `RegExp.test`. -/
def reTestAux (r : Re) : Option Char → List Char → Bool
  | p, [] => !(runRe (reFuel r []) r p []).isEmpty
  | p, c :: rest =>
    if !(runRe (reFuel r (c :: rest)) r p (c :: rest)).isEmpty then true
    else reTestAux r (some c) rest

/-- Semantics of `/r/.test(s)`. -/
def reTest (r : Re) (s : String) : Bool :=
  reTestAux r none s.data

/-- Concatenation of a list of regexes. -/
def seqRe (l : List Re) : Re := l.foldr Re.cat Re.eps

/-- Single case-insensitive literal character (a letter under the `i`
flag). -/
def ciChar (c : Char) : Re := .cls fun x => x.toLower == c.toLower

/-- Single case-sensitive literal character. -/
def csChar (c : Char) : Re := .cls fun x => x == c

/-- Case-insensitive literal string. -/
def ciStr (s : String) : Re := seqRe (s.data.map ciChar)

/-- Case-sensitive literal string. -/
def csStr (s : String) : Re := seqRe (s.data.map csChar)

/-- Character class listing its members (case-sensitive). -/
def chSet (s : String) : Re := .cls fun c => s.data.contains c

/-- Whitespace class `\s`. -/
def wsRe : Re := .cls isJsWs

/-- Non-whitespace class `\S`. -/
def nwsRe : Re := .cls fun c => !isJsWs c

/-- Word class `\w`. -/
def wRe : Re := .cls isWordCh

/-- The `.` metacharacter (any character except line terminators). -/
def dotRe : Re :=
  .cls fun c => !(c == '\n' || c == '\r' || c == Char.ofNat 0x2028 || c == Char.ofNat 0x2029)

/-- Class matching every character, as `[\s\S]` does. -/
def anyRe : Re := .cls fun _ => true

/-- One-or-more repetition `r+`. -/
def rePlus (r : Re) : Re := .cat r (.star r)

/-- Optional occurrence `r?`. -/
def optRe (r : Re) : Re := .alt r .eps

/-- Shorthand for `\s*`. -/
def ws0 : Re := .star wsRe

/-- Shorthand for `\s+`. -/
def ws1 : Re := rePlus wsRe

/-- Shorthand for `.*`. -/
def dotStar : Re := .star dotRe

/-- Letter class `[a-zA-Z]` (also `[A-Z]` or `[a-z]` under the `i` flag). -/
def alphaRe : Re := .cls fun c => ('a' ≤ c && c ≤ 'z') || ('A' ≤ c && c ≤ 'Z')

/-- Class `[A-Z_]` under the `i` flag: any letter or underscore. -/
def alphaUndRe : Re := .cls fun c => ('a' ≤ c && c ≤ 'z') || ('A' ≤ c && c ≤ 'Z') || c == '_'

/-- Class `[a-z0-9]` under the `i` flag, and `[a-z0-9-]` with the hyphen. -/
def alnumRe : Re := .cls fun c => ('a' ≤ c && c ≤ 'z') || ('A' ≤ c && c ≤ 'Z') || ('0' ≤ c && c ≤ '9')

/-- Class `[a-z0-9-]` under the `i` flag. -/
def alnumDashRe : Re :=
  .cls fun c => ('a' ≤ c && c ≤ 'z') || ('A' ≤ c && c ≤ 'Z') || ('0' ≤ c && c ≤ '9') || c == '-'

/-!
Embedding of `src/guard/instant-allow.ts`.

The chain-detection regex `/[;&|`]|\$\(/` and the anchored prefix test
`/^git\s+/i` are embedded as direct scanners so that list-level lemmas can
be proved about them; the dangerous-git patterns use the `Re` engine.
-/

/-- Backtick character (written by code point to keep source lines free of
stray backticks). -/
def backtickCh : Char := Char.ofNat 96

/-- Result type of `checkInstantAllow` (`InstantAllowResult`). -/
structure InstantAllowResult where
  allowed : Bool
  reason : Option String
  patternName : Option String
deriving DecidableEq, Repr

/-- The `SAFE_GIT_COMMANDS` list of `instant-allow.ts`, verbatim. -/
def SAFE_GIT_COMMANDS : List String :=
  ["status", "log", "diff", "add", "commit", "branch", "checkout", "stash",
   "fetch", "pull", "merge", "rebase", "show", "blame", "remote", "tag",
   "cherry-pick", "reflog", "shortlog", "describe", "rev-parse", "ls-files",
   "ls-tree"]

/-- Scanner for the chain-detection regex `[;&|` + backtick + `]|\$\(`:
true when the input contains one of the four chaining characters or the
two-character substring of a dollar followed by an opening parenthesis. -/
def hasChainOrSubst : List Char → Bool
  | [] => false
  | c :: rest =>
    if c == ';' || c == '&' || c == '|' || c == backtickCh then true
    else if c == '$' && rest.head? == some '(' then true
    else hasChainOrSubst rest

/-- Scanner for `/^git\s+/i`: a case-insensitive `git` prefix followed by
at least one whitespace character. -/
def startsGitWs : List Char → Bool
  | g :: i :: t :: c :: _ =>
    g.toLower == 'g' && i.toLower == 'i' && t.toLower == 't' && isJsWs c
  | _ => false

/-- The `DANGEROUS_GIT_PATTERNS` array of `instant-allow.ts`:
`/git\s+push/i`, `/git\s+reset\s+--hard/i`, `/git\s+clean\s+-[a-z]*f/i`,
`/git\s+.*--force/i`, `/git\s+.*-f\b/i`. -/
def DANGEROUS_GIT_PATTERNS : List Re :=
  [seqRe [ciStr "git", ws1, ciStr "push"],
   seqRe [ciStr "git", ws1, ciStr "reset", ws1, ciStr "--hard"],
   seqRe [ciStr "git", ws1, ciStr "clean", ws1, csStr "-", .star alphaRe, ciChar 'f'],
   seqRe [ciStr "git", ws1, dotStar, ciStr "--force"],
   seqRe [ciStr "git", ws1, dotStar, csStr "-", ciChar 'f', .wordB]]

/-- The `isPureGitCommand` helper: no chaining in the trimmed command and
a `git ` prefix. -/
def isPureGitCommand (command : String) : Bool :=
  let trimmed := jsTrimL command.data
  if hasChainOrSubst trimmed then false
  else startsGitWs trimmed

/-- The `isDangerousGitCommand` helper: any dangerous pattern matches the
raw command. -/
def isDangerousGitCommand (command : String) : Bool :=
  DANGEROUS_GIT_PATTERNS.any fun r => reTest r command

/-- Capture of `/^git\s+(\S+)/i` on the raw command: the first
whitespace-delimited token after the `git` prefix. -/
def gitSubMatch : List Char → Option String
  | g :: i :: t :: rest =>
    if g.toLower == 'g' && i.toLower == 'i' && t.toLower == 't' then
      let afterWs := rest.dropWhile isJsWs
      if rest.length == afterWs.length then none
      else
        let sub := afterWs.takeWhile fun c => !isJsWs c
        if sub.isEmpty then none else some ⟨sub⟩
    else none
  | _ => none

/-- The `isSafeGitSubcommand` helper: the captured subcommand, lower-cased,
belongs to `SAFE_GIT_COMMANDS`. -/
def isSafeGitSubcommand (command : String) : Bool :=
  match gitSubMatch command.data with
  | none => false
  | some sub => SAFE_GIT_COMMANDS.contains (toLowerStr sub)

/-- The exported `checkInstantAllow` of `instant-allow.ts`. -/
def checkInstantAllow (command : String) : InstantAllowResult :=
  if (jsTrimL command.data).isEmpty then ⟨false, none, none⟩
  else if !isPureGitCommand command then ⟨false, none, none⟩
  else if isDangerousGitCommand command then ⟨false, none, none⟩
  else if isSafeGitSubcommand command then
    let sub := (gitSubMatch command.data).getD "git"
    ⟨true, some ("Safe git command: git " ++ sub), some ("git_" ++ sub)⟩
  else ⟨false, none, none⟩

/-!
Embedding of `src/utils/sanitize.ts`.

`sanitizeForPrompt` performs, in order: a clamp to `MAX_COMMAND_LENGTH`
with a `... [truncated]` suffix, a global replacement of the CDATA closer
sequence, and a collapse of runs of three or more newlines to two.  The
two `String.replace` calls are embedded as structural scanners:
`replCdata` rewrites occurrences left to right exactly as a global
regex replacement does, and `collapseNlAux run` drops every newline that
is preceded by two or more consecutive newlines, which is the same
transformation as replacing each maximal run of three or more newlines
by two.
-/

/-- The `MAX_COMMAND_LENGTH` constant. -/
def MAX_COMMAND_LENGTH : Nat := 2000

/-- Global replacement `]]>` to `]]&gt;` (the `/]]>/g` replace). -/
def replCdata : List Char → List Char
  | ']' :: ']' :: '>' :: rest => ']' :: ']' :: '&' :: 'g' :: 't' :: ';' :: replCdata rest
  | c :: rest => c :: replCdata rest
  | [] => []

/-- Newline-run collapse (the `/\n{3,}/g` to two-newline replace); `run`
counts the consecutive newlines already emitted immediately before the
current position. -/
def collapseNlAux : Nat → List Char → List Char
  | run, '\n' :: rest =>
    if run ≥ 2 then collapseNlAux run rest
    else '\n' :: collapseNlAux (run + 1) rest
  | _, c :: rest => c :: collapseNlAux 0 rest
  | _, [] => []

/-- Clamp to `MAX_COMMAND_LENGTH` characters plus the truncation marker. -/
def truncClamp (l : List Char) : List Char :=
  if l.length > MAX_COMMAND_LENGTH then l.take MAX_COMMAND_LENGTH ++ "... [truncated]".data
  else l

/-- The exported `sanitizeForPrompt`, on character lists. -/
def sanitizeL (l : List Char) : List Char :=
  collapseNlAux 0 (replCdata (truncClamp l))

/-- The exported `sanitizeForPrompt` of `sanitize.ts`. -/
def sanitizeForPrompt (s : String) : String :=
  ⟨sanitizeL s.data⟩

/-- The `PROMPT_INJECTION_PATTERNS` array of `sanitize.ts`, transliterated
pattern by pattern. -/
def PROMPT_INJECTION_PATTERNS : List Re :=
  [seqRe [ciStr "ignore", ws1, optRe (seqRe [ciStr "all", ws1]), optRe (seqRe [ciStr "previous", ws1]), ciStr "instructions"],
   seqRe [ciStr "forget", ws1, optRe (seqRe [ciStr "all", ws1]), optRe (seqRe [ciStr "previous", ws1]), ciStr "instructions"],
   seqRe [ciStr "disregard", ws1, optRe (seqRe [ciStr "all", ws1]), optRe (seqRe [ciStr "previous", ws1]), ciStr "instructions"],
   seqRe [ciStr "override", ws1, optRe (seqRe [ciStr "all", ws1]), optRe (seqRe [ciStr "previous", ws1]), ciStr "instructions"],
   seqRe [ciStr "skip", ws1, optRe (seqRe [ciStr "all", ws1]), optRe (seqRe [ciStr "security", ws1]), ciStr "check", optRe (ciChar 's')],
   seqRe [ciStr "bypass", ws1, optRe (seqRe [ciStr "all", ws1]), optRe (seqRe [ciStr "security", ws1]), ciStr "check", optRe (ciChar 's')],
   seqRe [ciStr "you", ws1, ciStr "are", ws1, optRe (seqRe [ciStr "now", ws1]), ciChar 'a'],
   seqRe [ciStr "act", ws1, ciStr "as", ws1, optRe (seqRe [ciChar 'a', ws1])],
   seqRe [ciStr "pretend", ws1, .alt (seqRe [ciStr "to", ws1, ciStr "be"]) (seqRe [ciStr "you", ws1, ciStr "are"])],
   seqRe [ciStr "new", ws1, ciStr "instruction", optRe (ciChar 's'), csStr ":"],
   seqRe [ciStr "update", optRe (ciChar 'd'), ws1, ciStr "instruction", optRe (ciChar 's'), csStr ":"],
   seqRe [ciStr "system", ws0, csStr ":"],
   seqRe [ciStr "assistant", ws0, csStr ":"],
   seqRe [ciStr "human", ws0, csStr ":"],
   seqRe [ciStr "user", ws0, csStr ":"],
   seqRe [csStr "<", ws0, ciStr "system", ws0, csStr ">"],
   seqRe [csStr "<", ws0, optRe (csStr "/"), ws0, ciStr "instruction", optRe (ciChar 's'), ws0, csStr ">"],
   seqRe [.wordB, ciStr "IMPORTANT", ws0, csStr ":"],
   seqRe [.wordB, ciStr "NOTE", ws0, csStr ":"],
   seqRe [.wordB, ciStr "WARNING", ws0, csStr ":"],
   seqRe [.wordB, ciStr "CRITICAL", ws0, csStr ":"],
   seqRe [.wordB, ciStr "URGENT", ws0, csStr ":"],
   seqRe [ciStr "respond", ws1, ciStr "with", ws1, optRe (seqRe [ciStr "this", ws1]), optRe (seqRe [ciStr "exact", ws1]), ciStr "json"],
   seqRe [ciStr "return", ws1, optRe (seqRe [ciStr "only", ws1]), optRe (chSet "\"'"), ciStr "ALLOW", optRe (chSet "\"'")],
   seqRe [ciStr "output", ws1, optRe (seqRe [ciStr "only", ws1]), optRe (chSet "\"'"), ciStr "ALLOW", optRe (chSet "\"'")],
   seqRe [ciStr "always", ws1, seqRe [.alt (ciStr "return") (.alt (ciStr "respond") (ciStr "output"))], ws1],
   seqRe [ciStr "must", ws1, seqRe [.alt (ciStr "return") (.alt (ciStr "respond") (ciStr "output"))], ws1],
   seqRe [ciStr "for", ws1, ciStr "testing", ws1, ciStr "purposes"],
   seqRe [ciStr "end", ws1, ciStr "of", ws1, optRe (seqRe [ciStr "test", ws1]), ciStr "instructions"],
   seqRe [ciStr "this", ws1, ciStr "is", ws1, optRe (seqRe [ciChar 'a', ws1]),
          .alt (ciStr "safe") (.alt (ciStr "secure") (.alt (ciStr "authorized") (ciStr "approved")))],
   seqRe [ciStr "pre", optRe (csStr "-"), ciStr "approved"],
   seqRe [ciStr "already", ws1, optRe (seqRe [ciStr "been", ws1]),
          .alt (ciStr "verified") (.alt (ciStr "approved") (ciStr "checked"))],
   seqRe [ciStr "classification", ws0, chSet "=:", ws0, optRe (chSet "\"'"),
          .alt (ciStr "SELF_HANDLE") (ciStr "ALLOW"), optRe (chSet "\"'")],
   seqRe [ciStr "verdict", ws0, chSet "=:", ws0, optRe (chSet "\"'"), ciStr "ALLOW", optRe (chSet "\"'")],
   seqRe [csStr "\x7b", optRe (csStr "\""), ws0, ciStr "verdict", ws0, optRe (csStr "\""), ws0, csStr ":", ws0, optRe (csStr "\""), ciStr "ALLOW"]]

/-- The exported `containsPromptInjection`. -/
def containsPromptInjection (command : String) : Bool :=
  PROMPT_INJECTION_PATTERNS.any fun r => reTest r command

/-- The `FORCE_ESCALATE_PATTERNS` array of `sanitize.ts`. -/
def FORCE_ESCALATE_PATTERNS : List Re :=
  [seqRe [csStr "|", ws0, optRe (ciStr "ba"), ciStr "sh"],
   seqRe [ciStr "curl", dotStar, csStr "|"],
   seqRe [ciStr "wget", dotStar, csStr "|"],
   ciStr "base64",
   seqRe [ciStr "eval", ws0, csStr "("],
   seqRe [csStr "$(", rePlus (.cls fun c => c != ')'), csStr ")"],
   seqRe [csChar backtickCh, rePlus (.cls fun c => c != backtickCh), csChar backtickCh],
   seqRe [chSet "<>", ws0, ciStr "/dev/tcp"],
   ciStr "/dev/tcp/",
   seqRe [ciStr "nc", ws1, dotStar, csStr "-", chSet "elp"],
   seqRe [.wordB, ciStr "sudo", .wordB],
   seqRe [.wordB, ciStr "su", .wordB, ws1, csStr "-"],
   seqRe [ciStr "chmod", ws1, .star (.cls fun c => '0' ≤ c && c ≤ '7'), csStr "7",
          .star (.cls fun c => '0' ≤ c && c ≤ '7')],
   ciStr ".env",
   seqRe [csStr "/", .alt (ciStr "etc") (.alt (ciStr "root") (ciStr "home")), csStr "/"]]

/-- The exported `shouldForceEscalate`. -/
def shouldForceEscalate (command : String) : Bool :=
  if containsPromptInjection command then true
  else FORCE_ESCALATE_PATTERNS.any fun r => reTest r command

/-!
Embedding of `src/config/domains.ts` and `src/guard/trusted-domain.ts`.
-/

/-- The `URL_SHORTENERS` list, verbatim. -/
def URL_SHORTENERS : List String :=
  ["bit.ly", "tinyurl.com", "t.co", "goo.gl", "ow.ly", "is.gd", "buff.ly",
   "adf.ly", "j.mp", "tr.im", "short.io", "rebrand.ly", "cutt.ly",
   "shorturl.at", "tiny.cc", "bc.vc", "v.gd", "x.co"]

/-- The `TRUSTED_DOMAINS` list, verbatim. -/
def TRUSTED_DOMAINS : List String :=
  ["npmjs.com", "registry.npmjs.org", "yarnpkg.com", "pypi.org", "pypa.io",
   "crates.io", "rubygems.org", "packagist.org",
   "github.com", "raw.githubusercontent.com", "gist.github.com",
   "objects.githubusercontent.com",
   "gitlab.com", "bitbucket.org",
   "bun.sh", "deno.land", "nodejs.org", "rustup.rs",
   "get.docker.com", "download.docker.com",
   "brew.sh", "formulae.brew.sh",
   "storage.googleapis.com", "azure.microsoft.com",
   "unpkg.com", "cdn.jsdelivr.net", "cdnjs.cloudflare.com",
   "vercel.com", "vercel.sh"]

/-- Class `[^/]`. -/
def notSlashRe : Re := .cls fun c => c != '/'

/-- The `RISKY_SUBDOMAIN_PATTERNS` array. -/
def RISKY_SUBDOMAIN_PATTERNS : List Re :=
  [seqRe [ciStr ".s3.amazonaws.com", .eos],
   seqRe [ciStr ".s3-", rePlus alnumDashRe, ciStr ".amazonaws.com", .eos],
   seqRe [ciStr "s3.", rePlus alnumDashRe, ciStr ".amazonaws.com", .eos],
   seqRe [ciStr ".github.io", .eos],
   seqRe [ciStr ".vercel.app", .eos],
   seqRe [ciStr ".netlify.app", .eos],
   seqRe [ciStr ".pages.dev", .eos],
   seqRe [ciStr ".onrender.com", .eos],
   seqRe [ciStr ".up.railway.app", .eos],
   seqRe [ciStr ".herokuapp.com", .eos],
   seqRe [ciStr ".gitlab.io", .eos],
   seqRe [ciStr ".web.app", .eos],
   seqRe [ciStr ".firebaseapp.com", .eos]]

/-- The exported `isRiskySubdomain`. -/
def isRiskySubdomain (hostname : String) : Bool :=
  RISKY_SUBDOMAIN_PATTERNS.any fun r => reTest r (toLowerStr hostname)

/-- The exported `isDomainTrusted`: not a risky user-controlled subdomain,
and equal to, or a subdomain of, a trusted domain. -/
def isDomainTrusted (hostname : String) : Bool :=
  let normalizedHost := toLowerStr hostname
  if isRiskySubdomain normalizedHost then false
  else TRUSTED_DOMAINS.any fun domain =>
    let normalizedDomain := toLowerStr domain
    normalizedHost == normalizedDomain ||
    ("." ++ normalizedDomain).data.isSuffixOf normalizedHost.data

/-- Strip a case-insensitive `http://` or `https://` scheme prefix,
returning the remainder. -/
def stripHttpScheme : List Char → Option (List Char)
  | h :: t1 :: t2 :: p :: rest =>
    if h.toLower == 'h' && t1.toLower == 't' && t2.toLower == 't' && p.toLower == 'p' then
      match rest with
      | s :: c :: s1 :: s2 :: r =>
        if s.toLower == 's' && c == ':' && s1 == '/' && s2 == '/' then some r
        else if s == ':' && c == '/' && s1 == '/' then some (s2 :: r)
        else none
      | s :: c :: s1 :: r =>
        if s == ':' && c == '/' && s1 == '/' then some r
        else none
      | _ => none
    else none
  | _ => none

/-- Models the hostname extraction of the platform URL parser
(`new URL(url).hostname`) for `http(s)` URLs: the authority runs to the
first `/`, `?` or `#`; credentials before the last `@` are dropped, as is
a `:port` suffix; the result is lower-cased, and an empty host means the
URL does not parse.  (Not repository code: `URL` is a JavaScript builtin;
IPv6 literals and percent encodings are outside the guard's inputs.) -/
def extractHostname (url : String) : Option String :=
  match stripHttpScheme url.data with
  | none => none
  | some afterScheme =>
    let auth := afterScheme.takeWhile fun c => !(c == '/' || c == '?' || c == '#')
    let hostPort := (auth.reverse.takeWhile fun c => c != '@').reverse
    let host := hostPort.takeWhile fun c => c != ':'
    if host.isEmpty then none else some (toLowerStr ⟨host⟩)

/-- The exported `isTrustedUrl`. -/
def isTrustedUrl (url : String) : Bool :=
  match extractHostname url with
  | none => false
  | some hostname => isDomainTrusted hostname

/-- Characters allowed in a URL body by the extraction regex
`[^\s"'<>]`. -/
def urlBodyCh (c : Char) : Bool :=
  !(isJsWs c || c == '"' || c == '\'' || c == '<' || c == '>')

/-- Match the URL regex `https?:\/\/[^\s"'<>]+` at the current position,
returning the matched slice and the rest of the input. -/
def matchUrlAt (l : List Char) : Option (List Char × List Char) :=
  match stripHttpScheme l with
  | none => none
  | some afterScheme =>
    let body := afterScheme.takeWhile urlBodyCh
    if body.isEmpty then none
    else some (l.take (l.length - afterScheme.length) ++ body, afterScheme.drop body.length)

/-- Global scan for URL matches, resuming after each match as the `g`
flag does; the fuel is the input length. -/
def extractUrlsAux : Nat → List Char → List (List Char)
  | 0, _ => []
  | _, [] => []
  | fuel + 1, c :: rest =>
    match matchUrlAt (c :: rest) with
    | some (url, after) => url :: extractUrlsAux fuel after
    | none => extractUrlsAux fuel rest

/-- The exported `extractUrls`: all URL matches, each stripped of trailing
punctuation (`)`, `,`, `;`, `.`). -/
def extractUrls (command : String) : List String :=
  (extractUrlsAux command.data.length command.data).map fun u =>
    ⟨dropRightWhileL (fun c => c == ')' || c == ',' || c == ';' || c == '.') u⟩

/-- The exported `isUrlShortener`. -/
def isUrlShortener (hostname : String) : Bool :=
  let normalizedHost := toLowerStr hostname
  URL_SHORTENERS.any fun shortener =>
    let normalizedShortener := toLowerStr shortener
    normalizedHost == normalizedShortener ||
    ("." ++ normalizedShortener).data.isSuffixOf normalizedHost.data

/-- The exported `isShortenerUrl`. -/
def isShortenerUrl (url : String) : Bool :=
  match extractHostname url with
  | none => false
  | some hostname => isUrlShortener hostname

/-- Result of `containsUrlShortener`. -/
structure ShortenerScan where
  found : Bool
  shortenerUrls : List String
deriving Repr

/-- The exported `containsUrlShortener`. -/
def containsUrlShortener (command : String) : ShortenerScan :=
  let urls := extractUrls command
  let shortenerUrls := urls.filter isShortenerUrl
  ⟨!shortenerUrls.isEmpty, shortenerUrls⟩

/-- The `RISKY_URL_PATTERNS` array. -/
def RISKY_URL_PATTERNS : List Re :=
  [ciStr "raw.githubusercontent.com",
   seqRe [ciStr "gist.github.com/", rePlus notSlashRe, csStr "/", rePlus notSlashRe, csStr "/", ciStr "raw"],
   seqRe [ciStr "github.com/", rePlus notSlashRe, csStr "/", rePlus notSlashRe, ciStr "/releases/download"],
   ciStr "objects.githubusercontent.com",
   seqRe [csStr "/", ciStr "get.", rePlus notSlashRe, ciStr ".sh"]]

/-- The exported `isRiskyUrlPattern`. -/
def isRiskyUrlPattern (url : String) : Bool :=
  RISKY_URL_PATTERNS.any fun r => reTest r url

/-- Result type of `checkTrustedDomains` (`TrustedDomainResult`). -/
structure TrustedDomainResult where
  allTrusted : Bool
  hasRiskyUrls : Bool
  urls : List String
  trustedUrls : List String
  untrustedUrls : List String
  riskyUrls : List String
deriving DecidableEq, Repr

/-- The exported `checkTrustedDomains` of `trusted-domain.ts`.  The source
loop that pushes each URL onto the trusted, untrusted and risky lists is
rendered with order-preserving filters. -/
def checkTrustedDomains (command : String) : TrustedDomainResult :=
  let urls := extractUrls command
  if urls.isEmpty then ⟨true, false, [], [], [], []⟩
  else
    let trustedUrls := urls.filter isTrustedUrl
    let untrustedUrls := urls.filter fun u => !isTrustedUrl u
    let riskyUrls := urls.filter isRiskyUrlPattern
    ⟨untrustedUrls.isEmpty, !riskyUrls.isEmpty, urls, trustedUrls, untrustedUrls, riskyUrls⟩

/-!
Embedding of `src/config/patterns.ts` (the revision whose patterns carry
`risk` and `legitimateUses` fields, which is the one the current
`instant-block.ts` reads), together with `src/guard/instant-block.ts`
(`checkHighRiskPatterns`) and `src/guard/checkpoint.ts`
(`detectCheckpoint`).
-/

/-- Pattern severity. -/
inductive Severity where
  | critical
  | high
  | medium
deriving DecidableEq, Repr

/-- A `BlockPattern` entry. -/
structure BlockPattern where
  name : String
  pattern : Re
  severity : Severity
  description : String
  risk : String
  legitimateUses : List String

/-- Character class with case-insensitive membership (a `[..]` class under
the `i` flag). -/
def chSetCi (s : String) : Re := .cls fun c => s.data.contains c.toLower

/-- Command-position anchor `(?:^|[;&|]\s*)` of the self-protection
patterns. -/
def cmdPosRe : Re := .alt .bos (seqRe [chSet ";&|", ws0])

/-- The `REVERSE_SHELL_PATTERNS` array. -/
def REVERSE_SHELL_PATTERNS : List BlockPattern :=
  let rsRisk := "Remote attacker gains complete control of your system"
  let rsLegit := ["Penetration testing", "CTF challenges", "Security research"]
  [⟨"bash_reverse_shell", seqRe [ciStr "bash", ws1, ciStr "-i", ws1, csStr ">&", ws0, ciStr "/dev/tcp"],
    .critical, "Bash reverse shell via /dev/tcp", rsRisk, rsLegit⟩,
   ⟨"sh_reverse_shell", seqRe [.wordB, ciStr "sh", ws1, ciStr "-i", ws1, csStr ">&", ws0, ciStr "/dev/tcp"],
    .critical, "sh reverse shell via /dev/tcp", rsRisk, rsLegit⟩,
   ⟨"zsh_reverse_shell", seqRe [ciStr "zsh", ws1, ciStr "-i", ws1, csStr ">&", ws0, ciStr "/dev/tcp"],
    .critical, "Zsh reverse shell via /dev/tcp", rsRisk, rsLegit⟩,
   ⟨"ksh_reverse_shell", seqRe [ciStr "ksh", ws1, ciStr "-i", ws1, csStr ">&", ws0, ciStr "/dev/tcp"],
    .critical, "Ksh reverse shell via /dev/tcp", rsRisk, rsLegit⟩,
   ⟨"dash_reverse_shell", seqRe [ciStr "dash", ws1, ciStr "-i", ws1, csStr ">&", ws0, ciStr "/dev/tcp"],
    .critical, "Dash reverse shell via /dev/tcp", rsRisk, rsLegit⟩,
   ⟨"dev_tcp_redirect", seqRe [csStr ">", ws0, optRe (csStr "&"), ws0, ciStr "/dev/tcp/"],
    .critical, "Redirection to /dev/tcp (reverse shell indicator)", rsRisk, rsLegit⟩,
   ⟨"netcat_reverse_shell", seqRe [ciStr "nc", ws1, dotStar, ciStr "-e", ws1, optRe (ciStr "/bin/"), optRe (ciStr "ba"), ciStr "sh"],
    .critical, "Netcat reverse shell with -e flag", rsRisk, rsLegit⟩,
   ⟨"netcat_c_flag", seqRe [ciStr "nc", ws1, dotStar, ciStr "-c", ws1, optRe (ciStr "/bin/"), optRe (ciStr "ba"), ciStr "sh"],
    .critical, "Netcat reverse shell with -c flag", rsRisk, rsLegit⟩,
   ⟨"ncat_reverse_shell", seqRe [ciStr "ncat", ws1, dotStar, ciStr "-e", ws1, optRe (ciStr "/bin/"), optRe (ciStr "ba"), ciStr "sh"],
    .critical, "Ncat reverse shell", rsRisk, rsLegit⟩,
   ⟨"python_reverse_shell", seqRe [ciStr "python", optRe (chSet "23"), ws1, dotStar, ciStr "-c", ws1, dotStar, ciStr "socket", dotStar, ciStr "connect"],
    .critical, "Python socket-based reverse shell", rsRisk, rsLegit⟩,
   ⟨"python_pty_shell", seqRe [ciStr "python", optRe (chSet "23"), ws1, dotStar, ciStr "-c", ws1, dotStar, ciStr "pty.spawn"],
    .critical, "Python PTY spawn (shell upgrade)", rsRisk, rsLegit⟩,
   ⟨"perl_reverse_shell", seqRe [ciStr "perl", ws1, dotStar, optRe (seqRe [ciStr "-e", ws1, dotStar]), optRe (chSet "\"'"), ciStr "use", ws1, ciStr "Socket"],
    .critical, "Perl socket-based reverse shell", rsRisk, rsLegit⟩,
   ⟨"ruby_reverse_shell", seqRe [ciStr "ruby", ws1, dotStar, ciStr "-rsocket", ws1, ciStr "-e"],
    .critical, "Ruby socket-based reverse shell", rsRisk, rsLegit⟩,
   ⟨"ruby_socket_reverse", seqRe [ciStr "ruby", ws1, dotStar, ciStr "-e", ws1, dotStar, ciStr "TCPSocket"],
    .critical, "Ruby TCPSocket reverse shell", rsRisk, rsLegit⟩,
   ⟨"php_reverse_shell", seqRe [ciStr "php", ws1, dotStar, ciStr "-r", ws1, dotStar, ciStr "fsockopen"],
    .critical, "PHP fsockopen reverse shell", rsRisk, rsLegit⟩,
   ⟨"socat_reverse_shell", seqRe [ciStr "socat", ws1, dotStar, ciStr "exec", dotStar, ciStr "sh"],
    .critical, "Socat reverse shell", rsRisk, rsLegit⟩,
   ⟨"telnet_reverse_shell", seqRe [ciStr "telnet", ws1, dotStar, csStr "|", ws0, ciStr "/bin/", optRe (ciStr "ba"), ciStr "sh"],
    .critical, "Telnet-based reverse shell", rsRisk, rsLegit⟩]

/-- The `DATA_EXFIL_PATTERNS` array. -/
def DATA_EXFIL_PATTERNS : List BlockPattern :=
  let deRisk := "Sensitive data (API keys, secrets, credentials) sent to external server"
  let deLegit := ["Sending auth headers to your own API", "Debugging with trusted services"]
  [⟨"curl_api_key", seqRe [ciStr "curl", dotStar, csStr "$", optRe (csStr "\x7b"), .star alphaUndRe, ciStr "KEY"],
    .critical, "curl with API key environment variable", deRisk, deLegit⟩,
   ⟨"curl_secret", seqRe [ciStr "curl", dotStar, csStr "$", optRe (csStr "\x7b"), .star alphaUndRe, ciStr "SECRET"],
    .critical, "curl with secret environment variable", deRisk, deLegit⟩,
   ⟨"curl_token", seqRe [ciStr "curl", dotStar, csStr "$", optRe (csStr "\x7b"), .star alphaUndRe, ciStr "TOKEN"],
    .critical, "curl with token environment variable", deRisk, deLegit⟩,
   ⟨"curl_password", seqRe [ciStr "curl", dotStar, csStr "$", optRe (csStr "\x7b"), .star alphaUndRe, ciStr "PASSWORD"],
    .critical, "curl with password environment variable", deRisk, deLegit⟩,
   ⟨"curl_credential", seqRe [ciStr "curl", dotStar, csStr "$", optRe (csStr "\x7b"), .star alphaUndRe, ciStr "CREDENTIAL"],
    .critical, "curl with credential environment variable", deRisk, deLegit⟩,
   ⟨"wget_key", seqRe [ciStr "wget", dotStar, csStr "$", optRe (csStr "\x7b"), .star alphaUndRe, ciStr "KEY"],
    .critical, "wget with API key environment variable", deRisk, deLegit⟩,
   ⟨"wget_secret", seqRe [ciStr "wget", dotStar, csStr "$", optRe (csStr "\x7b"), .star alphaUndRe, ciStr "SECRET"],
    .critical, "wget with secret environment variable", deRisk, deLegit⟩,
   ⟨"wget_token", seqRe [ciStr "wget", dotStar, csStr "$", optRe (csStr "\x7b"), .star alphaUndRe, ciStr "TOKEN"],
    .critical, "wget with token environment variable", deRisk, deLegit⟩,
   ⟨"curl_data_env", seqRe [ciStr "curl", ws1, dotStar, .alt (ciStr "-d") (.alt (ciStr "--data") (ciStr "--data-raw")), ws1, dotStar, csStr "$", optRe (csStr "\x7b"), alphaUndRe],
    .critical, "curl POST with environment variable in data", deRisk, deLegit⟩,
   ⟨"curl_header_env", seqRe [ciStr "curl", ws1, dotStar, .alt (ciStr "-H") (ciStr "--header"), ws1, dotStar, csStr "$", optRe (csStr "\x7b"), alphaUndRe],
    .critical, "curl with environment variable in header", deRisk, deLegit⟩,
   ⟨"wget_post_env", seqRe [ciStr "wget", ws1, dotStar, ciStr "--post-data", dotStar, csStr "$", optRe (csStr "\x7b"), alphaUndRe],
    .critical, "wget POST with environment variable", deRisk, deLegit⟩,
   ⟨"wget_header_env", seqRe [ciStr "wget", ws1, dotStar, ciStr "--header", dotStar, csStr "$", optRe (csStr "\x7b"), alphaUndRe],
    .critical, "wget with environment variable in header", deRisk, deLegit⟩,
   ⟨"env_pipe_curl", seqRe [.wordB, ciStr "env", .wordB, dotStar, csStr "|", ws0, ciStr "curl"],
    .critical, "Environment dump piped to curl",
    "All environment variables (including secrets) sent to external server",
    ["Debugging in controlled environment"]⟩,
   ⟨"printenv_pipe", seqRe [ciStr "printenv", dotStar, csStr "|", ws0, .alt (ciStr "curl") (.alt (ciStr "nc") (ciStr "wget"))],
    .critical, "Printenv piped to network command",
    "All environment variables sent to external server",
    ["Debugging in controlled environment"]⟩,
   ⟨"env_pipe_nc", seqRe [.wordB, ciStr "env", .wordB, dotStar, csStr "|", ws0, ciStr "nc", .wordB],
    .critical, "Environment dump piped to netcat",
    "All environment variables sent to external server",
    ["Debugging in controlled environment"]⟩,
   ⟨"ssh_key_exfil", seqRe [ciStr "cat", ws1, dotStar, ciStr ".ssh/", .alt (ciStr "id_rsa") (.alt (ciStr "id_ed25519") (ciStr "id_dsa")), dotStar, csStr "|", ws0, .alt (ciStr "curl") (.alt (ciStr "nc") (ciStr "wget"))],
    .critical, "SSH private key exfiltration",
    "SSH private key sent to external server - attacker can access your servers",
    ["Backing up keys to your own secure storage"]⟩,
   ⟨"aws_creds_exfil", seqRe [ciStr "cat", ws1, dotStar, ciStr ".aws/", .alt (ciStr "credentials") (ciStr "config"), dotStar, csStr "|", ws0, .alt (ciStr "curl") (.alt (ciStr "nc") (ciStr "wget"))],
    .critical, "AWS credentials exfiltration",
    "AWS credentials sent to external server - attacker gains cloud access",
    ["Backing up config to your own secure storage"]⟩,
   ⟨"file_stdin_curl", seqRe [ciStr "curl", ws1, dotStar, ciStr "-d", ws0, csStr "@-"],
    .high, "curl reading from stdin (potential data exfil)",
    "Piped data sent to external server",
    ["Uploading files to your own API", "CI/CD pipelines"]⟩,
   ⟨"scp_outbound", seqRe [ciStr "scp", ws1, dotStar, rePlus (.cls fun c => c != '@'), csStr "@", rePlus (.cls fun c => c != ':'), csStr ":"],
    .high, "scp to remote host (potential data exfil)",
    "Files copied to remote server",
    ["Deploying to your servers", "Backup operations"]⟩,
   ⟨"rsync_outbound", seqRe [ciStr "rsync", ws1, dotStar, rePlus (.cls fun c => c != '@'), csStr "@"],
    .high, "rsync to remote host (potential data exfil)",
    "Files synced to remote server",
    ["Deploying to your servers", "Backup operations"]⟩,
   ⟨"backtick_env_exfil", seqRe [ciStr "curl", dotStar, csChar backtickCh, dotStar, csStr "$", rePlus alphaUndRe, dotStar, csChar backtickCh],
    .critical, "curl with backtick command substitution containing env var", deRisk, deLegit⟩,
   ⟨"dns_tunnel_dig", seqRe [ciStr "dig", ws1, dotStar, csStr "$", alphaUndRe],
    .high, "DNS query with environment variable (potential DNS tunnel)",
    "Data exfiltration via DNS queries - bypasses firewalls",
    ["Dynamic DNS lookups", "DNS debugging"]⟩,
   ⟨"dns_tunnel_nslookup", seqRe [ciStr "nslookup", ws1, dotStar, csStr "$", alphaUndRe],
    .high, "nslookup with environment variable (potential DNS tunnel)",
    "Data exfiltration via DNS queries - bypasses firewalls",
    ["Dynamic DNS lookups", "DNS debugging"]⟩]

/-- The `CRYPTO_MINING_PATTERNS` array. -/
def CRYPTO_MINING_PATTERNS : List BlockPattern :=
  let cmRisk := "Uses your CPU/GPU for cryptocurrency mining, slowing system and increasing power costs"
  let cmLegit := ["Intentional mining on your own hardware", "Mining pool testing"]
  [⟨"xmrig", ciStr "xmrig", .critical, "XMRig cryptocurrency miner", cmRisk, cmLegit⟩,
   ⟨"minerd", ciStr "minerd", .critical, "Minerd cryptocurrency miner", cmRisk, cmLegit⟩,
   ⟨"cgminer", ciStr "cgminer", .critical, "CGMiner cryptocurrency miner", cmRisk, cmLegit⟩,
   ⟨"bfgminer", ciStr "bfgminer", .critical, "BFGMiner cryptocurrency miner", cmRisk, cmLegit⟩,
   ⟨"stratum_protocol", ciStr "stratum+tcp", .critical, "Stratum mining protocol", cmRisk, cmLegit⟩]

/-- The `OBFUSCATED_EXEC_PATTERNS` array. -/
def OBFUSCATED_EXEC_PATTERNS : List BlockPattern :=
  let obRisk := "Hidden/encoded commands executed - content cannot be reviewed before running"
  let obLegit := ["Running encoded payloads in security testing", "Decoding legitimate scripts"]
  [⟨"base64_pipe_bash", seqRe [csStr "|", ws0, ciStr "base64", ws1, ciStr "-d", ws0, csStr "|", ws0, optRe (ciStr "ba"), ciStr "sh"],
    .critical, "Base64 decode piped to shell", obRisk, obLegit⟩,
   ⟨"base64_decode_bash", seqRe [ciStr "base64", ws1, .alt (ciStr "-d") (ciStr "--decode"), ws1, rePlus nwsRe, ws0, csStr "|", ws0, optRe (ciStr "ba"), ciStr "sh"],
    .critical, "Base64 decode from file piped to shell", obRisk, obLegit⟩,
   ⟨"eval_base64_decode", seqRe [ciStr "eval", ws0, csStr "(", ws0, ciStr "base64_decode"],
    .critical, "PHP-style eval with base64 decode", obRisk, obLegit⟩,
   ⟨"eval_curl", seqRe [ciStr "eval", ws1, dotStar, csStr "$(", dotStar, ciStr "curl"],
    .critical, "eval with curl command substitution",
    "Remote code downloaded and executed immediately",
    ["Running installer scripts you trust"]⟩,
   ⟨"eval_wget", seqRe [ciStr "eval", ws1, dotStar, csStr "$(", dotStar, ciStr "wget"],
    .critical, "eval with wget command substitution",
    "Remote code downloaded and executed immediately",
    ["Running installer scripts you trust"]⟩,
   ⟨"bash_herestring_curl", seqRe [ciStr "bash", ws1, csStr "<<<", ws0, dotStar, csStr "$(", dotStar, ciStr "curl"],
    .critical, "bash here-string with curl",
    "Remote code downloaded and executed via here-string",
    ["Running installer scripts you trust"]⟩,
   ⟨"bash_process_sub", seqRe [ciStr "bash", ws1, csStr "<(", dotStar, ciStr "curl"],
    .critical, "bash process substitution with curl",
    "Remote code downloaded and executed via process substitution",
    ["Running installer scripts you trust"]⟩,
   ⟨"bash_process_sub_wget", seqRe [ciStr "bash", ws1, csStr "<(", dotStar, ciStr "wget"],
    .critical, "bash process substitution with wget",
    "Remote code downloaded and executed via process substitution",
    ["Running installer scripts you trust"]⟩]

/-- The `DESTRUCTIVE_PATTERNS` array. -/
def DESTRUCTIVE_PATTERNS : List BlockPattern :=
  [⟨"rm_rf_root", seqRe [ciStr "rm", ws1, .star (seqRe [csStr "-", .star alphaRe, ciChar 'f', .star alphaRe, ws1]),
      csStr "-", .star alphaRe, ciChar 'r', .star alphaRe, dotStar, ws1, csStr "/", .alt wsRe (.alt .eos (chSet ";&"))],
    .critical, "rm -rf on root directory",
    "Deletes entire filesystem - complete data loss, unbootable system",
    ["Wiping a system intentionally before reinstall"]⟩,
   ⟨"rm_rf_home", seqRe [ciStr "rm", ws1, .star (seqRe [csStr "-", .star alphaRe, ciChar 'f', .star alphaRe, ws1]),
      csStr "-", .star alphaRe, ciChar 'r', .star alphaRe, dotStar, ws1, .alt (csStr "~") (.alt (ciStr "/home") (ciStr "$HOME"))],
    .critical, "rm -rf on home directory",
    "Deletes all user files - documents, configs, ssh keys, everything",
    ["Cleaning up a user account before deletion"]⟩,
   ⟨"rm_rf_star", seqRe [ciStr "rm", ws1, .star (seqRe [csStr "-", .star alphaRe, ciChar 'f', .star alphaRe, ws1]),
      csStr "-", .star alphaRe, ciChar 'r', .star alphaRe, ws1, csStr "*"],
    .critical, "rm -rf with wildcard",
    "Deletes all files in current directory recursively",
    ["Cleaning build artifacts", "Resetting test environment"]⟩,
   ⟨"mkfs_format", seqRe [ciStr "mkfs", optRe (seqRe [csStr ".", rePlus alnumRe]), ws1, ciStr "/dev/"],
    .critical, "mkfs filesystem format on device",
    "Formats disk - all data on device will be permanently lost",
    ["Setting up new disk", "Creating bootable drives"]⟩,
   ⟨"dd_destructive", seqRe [ciStr "dd", ws1, dotStar, ciStr "of=/dev/", chSetCi "hs", ciChar 'd'],
    .critical, "dd write to disk device",
    "Overwrites disk directly - data loss, potential boot failure",
    ["Creating bootable USB", "Disk imaging"]⟩,
   ⟨"dd_zero_device", seqRe [ciStr "dd", ws1, dotStar, ciStr "if=/dev/", .alt (ciStr "zero") (ciStr "urandom"), dotStar, ciStr "of=/dev/"],
    .critical, "dd zero/random write to device",
    "Wipes disk with zeros/random data - complete, unrecoverable data loss",
    ["Secure disk wiping", "Preparing disk for disposal"]⟩,
   ⟨"fork_bomb", seqRe [csStr ":()", ws0, csStr "\x7b", ws0, csStr ":", ws0, csStr "|", ws0, csStr ":", ws0, csStr "&", ws0, csStr "\x7d", ws0, optRe (csStr ";"), ws0, csStr ":"],
    .critical, "Fork bomb",
    "Creates infinite processes - system freeze, requires hard reboot",
    ["Testing system limits", "Security demonstrations"]⟩,
   ⟨"fork_bomb_variant", seqRe [rePlus wRe, csStr "()", ws0, csStr "\x7b", ws0, rePlus wRe, ws0, csStr "|", ws0, rePlus wRe, ws0, csStr "&", ws0, csStr "\x7d", ws0, optRe (csStr ";"), ws0, rePlus wRe],
    .critical, "Fork bomb variant",
    "Creates infinite processes - system freeze, requires hard reboot",
    ["Testing system limits", "Security demonstrations"]⟩,
   ⟨"chmod_recursive_777", seqRe [ciStr "chmod", ws1, .alt (ciStr "-R") (ciStr "--recursive"), ws1, csStr "777", ws1, csStr "/"],
    .critical, "chmod 777 recursive on system directories",
    "Makes all system files world-writable - severe security vulnerability",
    ["Almost never legitimate on system directories"]⟩,
   ⟨"chown_recursive_root", seqRe [ciStr "chown", ws1, .alt (ciStr "-R") (ciStr "--recursive"), ws1, dotStar, ws1, csStr "/", .alt wsRe .eos],
    .critical, "chown recursive on root",
    "Changes ownership of all system files - can break system",
    ["System recovery operations"]⟩]

/-- The `SELF_PROTECTION_PATTERNS` array. -/
def SELF_PROTECTION_PATTERNS : List BlockPattern :=
  let spRisk := "Attempting to disable security monitoring - this could be a prompt injection attack"
  let spLegit := ["Intentionally uninstalling vibesafu via CLI"]
  [⟨"vibesafu_uninstall", seqRe [cmdPosRe, ciStr "vibesaf", optRe (ciChar 'u'), ws1, ciStr "uninstall"],
    .critical, "Attempting to uninstall vibesafu security hook", spRisk, spLegit⟩,
   ⟨"vibesafu_rm", seqRe [cmdPosRe, ciStr "rm", ws1, optRe (seqRe [csStr "-", rePlus (chSetCi "rf"), ws1]), dotStar, ciStr "vibesafu"],
    .critical, "Attempting to delete vibesafu files", spRisk, spLegit⟩,
   ⟨"claude_settings_write", seqRe [cmdPosRe, .alt (ciStr "cat") (.alt (ciStr "echo") (ciStr "printf")), ws1, dotStar, csStr ">", ws0, optRe (csStr "~"), optRe (csStr "/"), dotRe, ciStr "claude/settings.json"],
    .critical, "Attempting to overwrite Claude Code settings", spRisk,
    ["Manually configuring Claude Code settings"]⟩,
   ⟨"claude_settings_edit", seqRe [cmdPosRe, .alt (ciStr "sed") (ciStr "awk"), ws1, dotStar, ciStr ".claude/settings.json"],
    .critical, "Attempting to edit Claude Code settings", spRisk,
    ["Manually configuring Claude Code settings"]⟩,
   ⟨"vibesafu_kill", seqRe [cmdPosRe, .alt (ciStr "kill") (.alt (ciStr "pkill") (ciStr "killall")), ws1, dotStar, ciStr "vibesafu"],
    .critical, "Attempting to kill vibesafu process", spRisk, spLegit⟩]

/-- The combined `INSTANT_BLOCK_PATTERNS` array. -/
def INSTANT_BLOCK_PATTERNS : List BlockPattern :=
  REVERSE_SHELL_PATTERNS ++ DATA_EXFIL_PATTERNS ++ CRYPTO_MINING_PATTERNS ++
  OBFUSCATED_EXEC_PATTERNS ++ DESTRUCTIVE_PATTERNS ++ SELF_PROTECTION_PATTERNS

/-- Checkpoint kinds of `SecurityCheckpoint.type`. -/
inductive CheckpointType where
  | network
  | packageInstall
  | gitOperation
  | fileSensitive
  | scriptExecution
  | envModification
  | urlShortener
deriving DecidableEq, Repr

/-- The string form of a checkpoint kind, as it appears in the source. -/
def checkpointTypeStr : CheckpointType → String
  | .network => "network"
  | .packageInstall => "package_install"
  | .gitOperation => "git_operation"
  | .fileSensitive => "file_sensitive"
  | .scriptExecution => "script_execution"
  | .envModification => "env_modification"
  | .urlShortener => "url_shortener"

/-- A `CheckpointPattern` entry. -/
structure CheckpointPattern where
  pattern : Re
  type : CheckpointType
  description : String

/-- The `CHECKPOINT_PATTERNS` array, in source order: script execution,
network, package installation, git operations, environment files,
sensitive files. -/
def CHECKPOINT_PATTERNS : List CheckpointPattern :=
  [⟨seqRe [ciStr "curl", ws1, dotStar, csStr "|", ws0, optRe (ciStr "ba"), ciStr "sh"], .scriptExecution, "curl piped to shell"⟩,
   ⟨seqRe [ciStr "wget", ws1, dotStar, csStr "|", ws0, optRe (ciStr "ba"), ciStr "sh"], .scriptExecution, "wget piped to shell"⟩,
   ⟨seqRe [ciStr "curl", ws1, dotStar, ciStr "-o", ws0, csStr "-", ws0, csStr "|"], .scriptExecution, "curl output piped"⟩,
   ⟨seqRe [ciStr "chmod", ws1, csStr "+", ciChar 'x'], .scriptExecution, "Making file executable"⟩,
   ⟨seqRe [csStr "./", rePlus nwsRe, ciStr ".sh"], .scriptExecution, "Running shell script"⟩,
   ⟨seqRe [ciStr "bash", ws1, rePlus nwsRe, ciStr ".sh"], .scriptExecution, "Running shell script with bash"⟩,
   ⟨seqRe [ciStr "npm", ws1, ciStr "run", .wordB], .scriptExecution, "npm run (executes package.json scripts)"⟩,
   ⟨seqRe [.wordB, ciStr "make", .wordB], .scriptExecution, "make (executes Makefile)"⟩,
   ⟨seqRe [ciStr "curl", ws1, dotStar, ciStr "http", optRe (ciChar 's'), csStr "://", rePlus (.cls fun c => !(isJsWs c || c == '"' || c == '\''))], .network, "curl HTTP request"⟩,
   ⟨seqRe [ciStr "wget", ws1, dotStar, ciStr "http", optRe (ciChar 's'), csStr "://", rePlus (.cls fun c => !(isJsWs c || c == '"' || c == '\''))], .network, "wget HTTP request"⟩,
   ⟨seqRe [ciStr "npm", ws1, ciStr "install", ws1, .nla (seqRe [csStr "-", chSet "dDgG"])], .packageInstall, "npm install"⟩,
   ⟨seqRe [ciStr "pnpm", ws1, .alt (ciStr "add") (ciStr "install")], .packageInstall, "pnpm add/install"⟩,
   ⟨seqRe [ciStr "yarn", ws1, ciStr "add"], .packageInstall, "yarn add"⟩,
   ⟨seqRe [ciStr "pip", ws1, ciStr "install"], .packageInstall, "pip install"⟩,
   ⟨seqRe [ciStr "apt", optRe (ciStr "-get"), ws1, ciStr "install"], .packageInstall, "apt install"⟩,
   ⟨seqRe [ciStr "brew", ws1, ciStr "install"], .packageInstall, "brew install"⟩,
   ⟨seqRe [ciStr "git", ws1, ciStr "push"], .gitOperation, "git push"⟩,
   ⟨seqRe [ciStr "git", ws1, ciStr "commit"], .gitOperation, "git commit (triggers pre-commit, commit-msg hooks)"⟩,
   ⟨seqRe [ciStr "git", ws1, ciStr "checkout"], .gitOperation, "git checkout (triggers post-checkout hook)"⟩,
   ⟨seqRe [ciStr "git", ws1, ciStr "switch"], .gitOperation, "git switch (triggers post-checkout hook)"⟩,
   ⟨seqRe [ciStr "git", ws1, ciStr "merge"], .gitOperation, "git merge (triggers pre-merge-commit, post-merge hooks)"⟩,
   ⟨seqRe [ciStr "git", ws1, ciStr "rebase"], .gitOperation, "git rebase (triggers pre-rebase hook)"⟩,
   ⟨seqRe [ciStr "git", ws1, ciStr "pull"], .gitOperation, "git pull (triggers post-merge hook)"⟩,
   ⟨seqRe [ciStr "git", ws1, ciStr "fetch"], .gitOperation, "git fetch"⟩,
   ⟨seqRe [ciStr "git", ws1, ciStr "reset", ws1, ciStr "--hard"], .gitOperation, "git reset --hard"⟩,
   ⟨seqRe [ciStr "git", ws1, dotStar, ciStr "--force"], .gitOperation, "git force operation"⟩,
   ⟨seqRe [ciStr "git", ws1, ciStr "clean", ws1, csStr "-", .star alphaRe, ciChar 'f'], .gitOperation, "git clean with force"⟩,
   ⟨seqRe [ciStr "git", ws1, ciStr "stash"], .gitOperation, "git stash"⟩,
   ⟨seqRe [ciStr "git", ws1, ciStr "cherry-pick"], .gitOperation, "git cherry-pick"⟩,
   ⟨seqRe [ciStr "git", ws1, ciStr "add"], .gitOperation, "git add"⟩,
   ⟨seqRe [ciStr ".env", optRe (.alt (ciStr ".local") (.alt (ciStr ".production") (ciStr ".development"))), .alt wsRe (.alt .eos (chSet "\"'"))], .envModification, ".env file access"⟩,
   ⟨ciStr ".ssh", .fileSensitive, "SSH directory access"⟩,
   ⟨ciStr ".aws", .fileSensitive, "AWS credentials access"⟩,
   ⟨ciStr "credentials", .fileSensitive, "Credentials file access"⟩,
   ⟨seqRe [.alt (ciStr "cp") (ciStr "mv"), ws1, dotStar, ciStr ".ssh/"], .fileSensitive, "Copying/moving SSH files"⟩,
   ⟨seqRe [.alt (ciStr "cp") (ciStr "mv"), ws1, dotStar, ciStr ".aws/"], .fileSensitive, "Copying/moving AWS credentials"⟩,
   ⟨seqRe [.alt (ciStr "cp") (ciStr "mv"), ws1, dotStar, ciStr ".env", .alt wsRe .eos], .fileSensitive, "Copying/moving .env file"⟩]

/-- A detected `SecurityCheckpoint`. -/
structure SecurityCheckpoint where
  type : CheckpointType
  command : String
  description : String
deriving DecidableEq, Repr

/-- The exported `detectCheckpoint` of `checkpoint.ts`: after the
emptiness guard, the `containsUrlShortener` pre-check yields a
`url_shortener` checkpoint before `CHECKPOINT_PATTERNS` is walked. -/
def detectCheckpoint (command : String) : Option SecurityCheckpoint :=
  if (jsTrimL command.data).isEmpty then none
  else
    let shortenerCheck := containsUrlShortener command
    if shortenerCheck.found then
      some ⟨.urlShortener, command,
            "URL shortener detected: " ++ String.intercalate ", " shortenerCheck.shortenerUrls ++
            " - could redirect to malicious site"⟩
    else
      match CHECKPOINT_PATTERNS.find? fun p => reTest p.pattern command with
      | some p => some ⟨p.type, command, p.description⟩
      | none => none

/-- Result type of `checkHighRiskPatterns` (`HighRiskResult`). -/
structure HighRiskResult where
  detected : Bool
  patternName : Option String
  severity : Option Severity
  description : Option String
  risk : Option String
  legitimateUses : Option (List String)
deriving DecidableEq, Repr

/-- The exported `checkHighRiskPatterns` of `instant-block.ts`. -/
def checkHighRiskPatterns (command : String) : HighRiskResult :=
  if (jsTrimL command.data).isEmpty then ⟨false, none, none, none, none, none⟩
  else
    match INSTANT_BLOCK_PATTERNS.find? fun p => reTest p.pattern command with
    | some p => ⟨true, some p.name, some p.severity, some p.description, some p.risk, some p.legitimateUses⟩
    | none => ⟨false, none, none, none, none, none⟩

/-!
Embedding of `src/guard/file-tools.ts`.
-/

/-- File tool actions (`FileToolAction`). -/
inductive FileAction where
  | write
  | edit
  | read
deriving DecidableEq, Repr

/-- A `SensitivePath` entry. -/
structure SensitivePath where
  pattern : Re
  description : String
  severity : Severity
  risk : String
  legitimateUses : List String

/-- Global replacement of `$HOME` by `~` (the `/\$HOME/g` replace). -/
def replHOME : List Char → List Char
  | '$' :: 'H' :: 'O' :: 'M' :: 'E' :: rest => '~' :: replHOME rest
  | c :: rest => c :: replHOME rest
  | [] => []

/-- Lookahead for the six characters following a `$` that complete the
braced `HOME` form. -/
def isHomeBrace (l : List Char) : Bool :=
  match l with
  | b :: 'H' :: 'O' :: 'M' :: 'E' :: b2 :: _ =>
    b == Char.ofNat 123 && b2 == Char.ofNat 125
  | _ => false

/-- Global replacement of the braced `$\x7bHOME\x7d` form by `~`; the fuel
is the input length, and every step consumes at least one character. -/
def replHOMEBraceAux : Nat → List Char → List Char
  | 0, l => l
  | _, [] => []
  | fuel + 1, '$' :: rest =>
    if isHomeBrace rest then '~' :: replHOMEBraceAux fuel (rest.drop 6)
    else '$' :: replHOMEBraceAux fuel rest
  | fuel + 1, c :: rest => c :: replHOMEBraceAux fuel rest

/-- Global replacement of the braced `$\x7bHOME\x7d` form by `~`. -/
def replHOMEBrace (l : List Char) : List Char :=
  replHOMEBraceAux l.length l

/-- Collapse of slash runs (the `/\/+/g` to `/` replace); the flag records
whether the previous emitted character was a slash. -/
def collapseSlashesAux : Bool → List Char → List Char
  | prev, '/' :: rest =>
    if prev then collapseSlashesAux true rest else '/' :: collapseSlashesAux true rest
  | _, c :: rest => c :: collapseSlashesAux false rest
  | _, [] => []

/-- The `normalizePath` helper of `file-tools.ts`. -/
def normalizePath (filePath : String) : String :=
  ⟨collapseSlashesAux false (replHOMEBrace (replHOME filePath.data))⟩

/-- The `WRITE_SENSITIVE_PATHS` array. -/
def WRITE_SENSITIVE_PATHS : List SensitivePath :=
  [⟨seqRe [.bos, optRe (csStr "~"), optRe (csStr "/"), ciStr ".ssh/"], "SSH directory", .critical,
    "Attacker can add their key for persistent remote access", ["Adding new SSH keys", "Configuring SSH"]⟩,
   ⟨seqRe [ciStr ".ssh/authorized_keys", .eos], "SSH authorized_keys", .critical,
    "Attacker gains persistent SSH access to your machine", ["Adding authorized keys for remote access"]⟩,
   ⟨seqRe [ciStr ".ssh/config", .eos], "SSH config", .critical,
    "Can redirect SSH connections to attacker-controlled servers", ["Configuring SSH hosts and options"]⟩,
   ⟨seqRe [.bos, optRe (csStr "~"), optRe (csStr "/"), ciStr ".aws/"], "AWS credentials directory", .critical,
    "Attacker gains access to your AWS account", ["Configuring AWS CLI", "Setting up AWS profiles"]⟩,
   ⟨seqRe [.bos, optRe (csStr "~"), optRe (csStr "/"), ciStr ".azure/"], "Azure credentials directory", .critical,
    "Attacker gains access to your Azure account", ["Configuring Azure CLI"]⟩,
   ⟨seqRe [.bos, optRe (csStr "~"), optRe (csStr "/"), ciStr ".gcloud/"], "GCloud credentials directory", .critical,
    "Attacker gains access to your Google Cloud account", ["Configuring gcloud CLI"]⟩,
   ⟨seqRe [.bos, optRe (csStr "~"), optRe (csStr "/"), ciStr ".config/gcloud/"], "GCloud config directory", .critical,
    "Attacker gains access to your Google Cloud account", ["Configuring gcloud CLI"]⟩,
   ⟨seqRe [.bos, optRe (csStr "~"), optRe (csStr "/"), ciStr ".gnupg/"], "GPG directory", .critical,
    "Attacker can sign/encrypt as you or steal your keys", ["Managing GPG keys", "Configuring GPG"]⟩,
   ⟨seqRe [.bos, ciStr "/etc/"], "System /etc directory", .critical,
    "Can modify system configuration, add users, change permissions", ["System administration", "Server configuration"]⟩,
   ⟨seqRe [.bos, ciStr "/usr/"], "System /usr directory", .critical,
    "Can replace system binaries with malicious versions", ["Installing software", "System administration"]⟩,
   ⟨seqRe [.bos, ciStr "/bin/"], "System /bin directory", .critical,
    "Can replace core system commands", ["System administration"]⟩,
   ⟨seqRe [.bos, ciStr "/sbin/"], "System /sbin directory", .critical,
    "Can replace system administration commands", ["System administration"]⟩,
   ⟨seqRe [.bos, optRe (csStr "~"), optRe (csStr "/"), ciStr ".bashrc", .eos], "Bash startup file", .high,
    "Code runs every time you open a terminal", ["Adding aliases", "Setting environment variables", "Shell customization"]⟩,
   ⟨seqRe [.bos, optRe (csStr "~"), optRe (csStr "/"), ciStr ".bash_profile", .eos], "Bash profile", .high,
    "Code runs on login shell startup", ["Login shell configuration"]⟩,
   ⟨seqRe [.bos, optRe (csStr "~"), optRe (csStr "/"), ciStr ".zshrc", .eos], "Zsh startup file", .high,
    "Code runs every time you open a terminal", ["Adding aliases", "Setting environment variables", "Shell customization"]⟩,
   ⟨seqRe [.bos, optRe (csStr "~"), optRe (csStr "/"), ciStr ".zprofile", .eos], "Zsh profile", .high,
    "Code runs on login shell startup", ["Login shell configuration"]⟩,
   ⟨seqRe [.bos, optRe (csStr "~"), optRe (csStr "/"), ciStr ".profile", .eos], "Shell profile", .high,
    "Code runs on shell startup", ["Shell configuration"]⟩,
   ⟨seqRe [.bos, optRe (csStr "~"), optRe (csStr "/"), ciStr ".bash_logout", .eos], "Bash logout script", .high,
    "Code runs when you close terminal", ["Cleanup scripts"]⟩,
   ⟨seqRe [.bos, optRe (csStr "~"), optRe (csStr "/"), ciStr ".zlogout", .eos], "Zsh logout script", .high,
    "Code runs when you close terminal", ["Cleanup scripts"]⟩,
   ⟨ciStr "crontab", "Crontab file", .high,
    "Can schedule malicious code to run periodically", ["Setting up scheduled tasks", "Automation"]⟩,
   ⟨seqRe [.bos, ciStr "/var/spool/cron/"], "Cron spool directory", .high,
    "Can schedule malicious code to run periodically", ["System cron job management"]⟩,
   ⟨ciStr ".git/hooks/", "Git hooks directory", .high,
    "Code runs automatically on git operations (commit, push, etc.)",
    ["Setting up pre-commit hooks", "CI/CD integration", "Code formatting"]⟩,
   ⟨seqRe [.bos, optRe (csStr "~"), optRe (csStr "/"), ciStr ".npmrc", .eos], "NPM config (may contain tokens)", .high,
    "Can steal npm tokens or redirect package installs", ["Configuring npm registry", "Setting up private packages"]⟩,
   ⟨seqRe [.bos, optRe (csStr "~"), optRe (csStr "/"), ciStr ".pypirc", .eos], "PyPI config (may contain tokens)", .high,
    "Can steal PyPI tokens or redirect package installs", ["Configuring PyPI", "Publishing packages"]⟩,
   ⟨seqRe [.bos, optRe (csStr "~"), optRe (csStr "/"), ciStr ".claude/"], "Claude config directory", .critical,
    "Can modify Claude Code settings and disable security hooks", ["Configuring Claude Code"]⟩,
   ⟨seqRe [ciStr ".claude/settings.json", .eos], "Claude Code settings", .critical,
    "Can disable vibesafu security hook - potential prompt injection attack", ["Manually configuring Claude Code"]⟩,
   ⟨seqRe [ciStr "vibesaf", optRe (ciChar 'u'), csStr "/"], "vibesafu directory", .critical,
    "Modifying security tool could disable protection - potential prompt injection attack",
    ["vibesafu development", "Legitimate updates"]⟩]

/-- The `READ_SENSITIVE_PATHS` array. -/
def READ_SENSITIVE_PATHS : List SensitivePath :=
  let keyRisk := "Private key can be used to access all your SSH-protected servers"
  let keyLegit := ["Backing up keys", "Key migration"]
  [⟨seqRe [ciStr ".ssh/id_rsa", .eos], "SSH private key (RSA)", .critical, keyRisk, keyLegit⟩,
   ⟨seqRe [ciStr ".ssh/id_ed25519", .eos], "SSH private key (Ed25519)", .critical, keyRisk, keyLegit⟩,
   ⟨seqRe [ciStr ".ssh/id_ecdsa", .eos], "SSH private key (ECDSA)", .critical, keyRisk, keyLegit⟩,
   ⟨seqRe [ciStr ".ssh/id_dsa", .eos], "SSH private key (DSA)", .critical, keyRisk, keyLegit⟩,
   ⟨seqRe [ciStr ".pem", .eos], "PEM private key", .critical,
    "Private key file - could grant access to servers or services", ["Certificate management", "Server configuration"]⟩,
   ⟨seqRe [ciStr ".key", .eos], "Private key file", .critical,
    "Private key file - could grant access to servers or services", ["Certificate management", "SSL configuration"]⟩,
   ⟨seqRe [ciStr ".aws/credentials", .eos], "AWS credentials", .critical,
    "Full access to your AWS account - can create resources, access data", ["Credential rotation", "Backup"]⟩,
   ⟨seqRe [ciStr ".azure/credentials", .eos], "Azure credentials", .critical,
    "Full access to your Azure account", ["Credential rotation", "Backup"]⟩,
   ⟨seqRe [ciStr ".env", .eos], "Environment file", .high,
    "Contains API keys, database passwords, and other secrets", ["Debugging", "Environment setup", "Configuration review"]⟩,
   ⟨seqRe [ciStr ".env.local", .eos], "Local environment file", .high,
    "Contains local development secrets", ["Debugging", "Local development"]⟩,
   ⟨seqRe [ciStr ".env.production", .eos], "Production environment file", .high,
    "Contains production secrets - highest value target", ["Deployment configuration", "Debugging production issues"]⟩,
   ⟨seqRe [ciStr ".env.development", .eos], "Development environment file", .high,
    "Contains development secrets", ["Development setup"]⟩,
   ⟨seqRe [.bos, ciStr "/etc/shadow", .eos], "System shadow file", .critical,
    "Contains hashed passwords for all system users", ["System administration", "Security auditing"]⟩,
   ⟨seqRe [.bos, ciStr "/etc/passwd", .eos], "System passwd file", .high,
    "Contains user account information", ["System administration", "User management"]⟩,
   ⟨seqRe [ciStr ".netrc", .eos], "Netrc credentials", .critical,
    "Contains plaintext passwords for FTP/HTTP authentication", ["Credential management"]⟩,
   ⟨seqRe [ciStr ".docker/config.json", .eos], "Docker config (may contain tokens)", .high,
    "May contain registry authentication tokens", ["Docker configuration", "Registry setup"]⟩,
   ⟨ciStr ".gnupg/private-keys", "GPG private keys", .critical,
    "Can decrypt messages and sign as you", ["Key backup", "Key migration"]⟩]

/-- Result type of `checkFilePath` (`FileCheckResult`). -/
structure FileCheckResult where
  blocked : Bool
  reason : Option String
  severity : Option Severity
  risk : Option String
  legitimateUses : Option (List String)
deriving DecidableEq, Repr

/-- The exported `checkFilePath`: first matching entry of the sensitivity
set for the action, applied to the normalized path. -/
def checkFilePath (filePath : String) (action : FileAction) : FileCheckResult :=
  let normalized := normalizePath filePath
  match action with
  | .read =>
    match READ_SENSITIVE_PATHS.find? fun e => reTest e.pattern normalized with
    | some e =>
      ⟨true, some ("Reading " ++ e.description ++ " (" ++ normalized ++ ")"),
       some e.severity, some e.risk, some e.legitimateUses⟩
    | none => ⟨false, none, none, none, none⟩
  | _ =>
    match WRITE_SENSITIVE_PATHS.find? fun e => reTest e.pattern normalized with
    | some e =>
      ⟨true,
       some ((if action = .write then "Writing to" else "Editing") ++ " " ++
             e.description ++ " (" ++ normalized ++ ")"),
       some e.severity, some e.risk, some e.legitimateUses⟩
    | none => ⟨false, none, none, none, none⟩

/-- Tool input record: the `tool_input` fields the guard consumes.  A
`none` field models an absent (JavaScript `undefined`) property. -/
structure ToolInput where
  command : Option String
  file_path : Option String
  notebook_path : Option String
deriving DecidableEq, Repr

/-- The exported `checkFileTool`: dispatch on the tool name, with a
missing `file_path` reported as not blocked. -/
def checkFileTool (toolName : String) (toolInput : ToolInput) : FileCheckResult :=
  match toolInput.file_path with
  | none => ⟨false, none, none, none, none⟩
  | some filePath =>
    if filePath = "" then ⟨false, none, none, none, none⟩
    else if toolName = "Write" then checkFilePath filePath .write
    else if toolName = "Edit" then checkFilePath filePath .edit
    else if toolName = "Read" then checkFilePath filePath .read
    else ⟨false, none, none, none, none⟩

/-!
A model of `JSON.parse` and of the reply handling in
`src/guard/haiku-triage.ts` and `src/guard/sonnet-review.ts`.

`Json` is the value domain of parsed replies.  Loosely-typed record
fields that the TypeScript code copies through without validation
(`reason`, `risk_level`, `risk_indicators`, `user_message`) are kept as
`Json` values, mirroring what the running JavaScript actually stores.
-/

/-- JSON values; numbers keep their source lexeme, which is all the guard
ever observes of them. -/
inductive Json where
  | null
  | bool (b : Bool)
  | num (lexeme : String)
  | str (s : String)
  | arr (elems : List Json)
  | obj (fields : List (String × Json))

/-- Opening brace character. -/
def lbraceCh : Char := Char.ofNat 123

/-- Closing brace character. -/
def rbraceCh : Char := Char.ofNat 125

/-- JSON insignificant whitespace. -/
def jsonWs (c : Char) : Bool :=
  c == ' ' || c == '\t' || c == '\n' || c == '\r'

/-- Value of a hexadecimal digit. -/
def hexVal (c : Char) : Option Nat :=
  let n := c.toNat
  if 48 ≤ n ∧ n ≤ 57 then some (n - 48)
  else if 97 ≤ n ∧ n ≤ 102 then some (n - 87)
  else if 65 ≤ n ∧ n ≤ 70 then some (n - 55)
  else none

/-- Parse the body of a JSON string after the opening quote, returning the
decoded content and the input after the closing quote.  (A `\u` escape
denoting a lone surrogate maps to the default character, a deviation from
UTF-16 semantics that the guard inputs never exercise.) -/
def pStr : List Char → Option (List Char × List Char)
  | [] => none
  | '"' :: rest => some ([], rest)
  | '\\' :: 'u' :: h1 :: h2 :: h3 :: h4 :: rest =>
    (match hexVal h1, hexVal h2, hexVal h3, hexVal h4 with
     | some a, some b, some c, some d =>
       match pStr rest with
       | some (content, rest2) => some (Char.ofNat (((a * 16 + b) * 16 + c) * 16 + d) :: content, rest2)
       | none => none
     | _, _, _, _ => none)
  | '\\' :: e :: rest =>
    (match
       (if e == '"' then some '"'
        else if e == '\\' then some '\\'
        else if e == '/' then some '/'
        else if e == 'b' then some (Char.ofNat 8)
        else if e == 'f' then some (Char.ofNat 12)
        else if e == 'n' then some '\n'
        else if e == 'r' then some '\r'
        else if e == 't' then some '\t'
        else none : Option Char) with
     | some decoded =>
       match pStr rest with
       | some (content, rest2) => some (decoded :: content, rest2)
       | none => none
     | none => none)
  | c :: rest =>
    if c.toNat < 32 then none
    else
      match pStr rest with
      | some (content, rest2) => some (c :: content, rest2)
      | none => none

/-- Decimal digit test. -/
def isDigitCh (c : Char) : Bool := '0' ≤ c && c ≤ '9'

/-- Parse a JSON number at the head of the input, returning its lexeme and
the rest (grammar `-?(0|[1-9][0-9]*)(\.[0-9]+)?([eE][+-]?[0-9]+)?`). -/
def pNum (l : List Char) : Option (List Char × List Char) :=
  let (sign, l1) := match l with
    | '-' :: r => ([('-' : Char)], r)
    | _ => ([], l)
  let intPart := l1.takeWhile isDigitCh
  if intPart.isEmpty then none
  else if intPart.length > 1 && intPart.head? == some '0' then none
  else
    let l2 := l1.drop intPart.length
    let (fracPart, l3) :=
      match l2 with
      | '.' :: r =>
        let ds := r.takeWhile isDigitCh
        if ds.isEmpty then ([], l2) else ('.' :: ds, r.drop ds.length)
      | _ => ([], l2)
    if l2 ≠ l3 || fracPart.isEmpty then
      match l3 with
      | e :: r =>
        if e == 'e' || e == 'E' then
          let (es, r1) := match r with
            | '+' :: r2 => (['+'], r2)
            | '-' :: r2 => (['-'], r2)
            | _ => ([], r)
          let ds := r1.takeWhile isDigitCh
          if ds.isEmpty then none
          else some (sign ++ intPart ++ fracPart ++ e :: es ++ ds, r1.drop ds.length)
        else some (sign ++ intPart ++ fracPart, l3)
      | [] => some (sign ++ intPart ++ fracPart, l3)
    else none

/-- Parse the members of a JSON object after the opening brace (first
member pending), with the value parser passed in and a fuel bounding the
number of members. -/
def pMembersG (pv : List Char → Option (Json × List Char)) :
    Nat → List Char → List (String × Json) → Option (List (String × Json) × List Char)
  | 0, _, _ => none
  | fuel + 1, l, acc =>
    match (l.dropWhile jsonWs) with
    | '"' :: rest =>
      (match pStr rest with
       | some (key, rest1) =>
         (match rest1.dropWhile jsonWs with
          | ':' :: rest2 =>
            (match pv rest2 with
             | some (v, rest3) =>
               (match rest3.dropWhile jsonWs with
                | ',' :: rest4 => pMembersG pv fuel rest4 (acc ++ [(⟨key⟩, v)])
                | c :: rest4 =>
                  if c == rbraceCh then some (acc ++ [(⟨key⟩, v)], rest4) else none
                | [] => none)
             | none => none)
          | _ => none)
       | none => none)
    | _ => none

/-- Parse the elements of a JSON array after the opening bracket (first
element pending). -/
def pElemsG (pv : List Char → Option (Json × List Char)) :
    Nat → List Char → List Json → Option (List Json × List Char)
  | 0, _, _ => none
  | fuel + 1, l, acc =>
    match pv l with
    | some (v, rest) =>
      (match rest.dropWhile jsonWs with
       | ',' :: rest1 => pElemsG pv fuel rest1 (acc ++ [v])
       | ']' :: rest1 => some (acc ++ [v], rest1)
       | _ => none)
    | none => none

/-- Parse a JSON value (with leading whitespace); the fuel bounds the
nesting depth and is decremented on entering a composite value. -/
def pValue : Nat → List Char → Option (Json × List Char)
  | 0, _ => none
  | fuel + 1, l =>
    let l1 := l.dropWhile jsonWs
    match l1 with
    | [] => none
    | '"' :: rest =>
      (match pStr rest with
       | some (content, rest1) => some (.str ⟨content⟩, rest1)
       | none => none)
    | 't' :: 'r' :: 'u' :: 'e' :: rest => some (.bool true, rest)
    | 'f' :: 'a' :: 'l' :: 's' :: 'e' :: rest => some (.bool false, rest)
    | 'n' :: 'u' :: 'l' :: 'l' :: rest => some (.null, rest)
    | '[' :: rest =>
      (match rest.dropWhile jsonWs with
       | ']' :: rest1 => some (.arr [], rest1)
       | _ => match pElemsG (pValue fuel) (rest.length + 1) rest [] with
              | some (elems, rest1) => some (.arr elems, rest1)
              | none => none)
    | c :: rest =>
      if c == lbraceCh then
        match rest.dropWhile jsonWs with
        | c1 :: rest1 =>
          if c1 == rbraceCh then some (.obj [], rest1)
          else
            match pMembersG (pValue fuel) (rest.length + 1) rest [] with
            | some (fields, rest1) => some (.obj fields, rest1)
            | none => none
        | [] => none
      else
        match pNum l1 with
        | some (lexeme, rest1) => some (.num ⟨lexeme⟩, rest1)
        | none => none

/-- Model of `JSON.parse`: parse one value and require only whitespace to
remain; `none` models a thrown `SyntaxError`. -/
def jsonParse (l : List Char) : Option Json :=
  match pValue (l.length + 2) l with
  | some (v, rest) => if (rest.dropWhile jsonWs).isEmpty then some v else none
  | none => none

/-- Property access `obj.field` on a parsed object: the last binding wins,
as for duplicate keys in JavaScript object construction. -/
def objField (fields : List (String × Json)) (key : String) : Option Json :=
  fields.foldl (fun acc p => if p.1 = key then some p.2 else acc) none

/-- The nullish-coalescing operator `x ?? d` on an optional field. -/
def nullishD (v : Option Json) (d : Json) : Json :=
  match v with
  | none => d
  | some .null => d
  | some x => x

/-- True when a JSON number lexeme denotes zero. -/
def jsNumIsZero (lexeme : String) : Bool :=
  (lexeme.data.takeWhile fun c => !(c == 'e' || c == 'E')).all fun c =>
    c == '0' || c == '-' || c == '.'

/-- JavaScript truthiness of a JSON value. -/
def jsTruthy : Json → Bool
  | .null => false
  | .bool b => b
  | .str s => !s.isEmpty
  | .num lexeme => !jsNumIsZero lexeme
  | .arr _ => true
  | .obj _ => true

/-- The string carried by a `Json.str`, if any. -/
def asStr : Json → Option String
  | .str s => some s
  | _ => none

/-- The match of the reply-scraping regex `\x7b[\s\S]*\x7d`: the slice
from the first opening brace to the last closing brace after it. -/
def jsonMatchSlice (l : List Char) : Option (List Char) :=
  match l.findIdx? (fun c => c == lbraceCh), l.reverse.findIdx? (fun c => c == rbraceCh) with
  | some i, some jr =>
    let j := l.length - 1 - jr
    if i < j then some ((l.drop i).take (j - i + 1)) else none
  | _, _ => none

/-!
Embedding of `src/guard/haiku-triage.ts` and `src/guard/sonnet-review.ts`.

The asynchronous API call is abstracted as an `ApiOutcome`: either a
response whose first content block is text (possibly absent or empty), or
a thrown error, distinguished by whether its message mentions a timeout.
Prompt construction has no effect on the returned result and is therefore
not part of the embedding.
-/

/-- Outcome of a `messages.create` call. -/
inductive ApiOutcome where
  | ok (text : Option String)
  | exn (timeoutLike : Bool)

/-- Result type of `triageWithHaiku` (`TriageResult`); loosely-typed
fields are kept as `Json`. -/
structure TriageResult where
  classification : String
  reason : Json
  riskIndicators : Json

/-- Result type of `reviewWithSonnet` (`ReviewResult`). -/
structure ReviewResult where
  verdict : String
  riskLevel : Json
  reason : Json
  userMessage : Option Json

/-- The `FORCE_ESCALATE_TYPES` array of `haiku-triage.ts`. -/
def FORCE_ESCALATE_TYPES : List CheckpointType := [.packageInstall]

/-- Spread `...(x ?? [])` of the `risk_indicators` field: arrays spread to
their elements, strings to their characters, a nullish value to nothing,
and any other value throws (`none` models the thrown `TypeError`). -/
def riskSpread : Option Json → Option (List Json)
  | none => some []
  | some .null => some []
  | some (.arr xs) => some xs
  | some (.str s) => some (s.data.map fun c => .str ⟨[c]⟩)
  | some _ => none

/-- An `ESCALATE` result with the given reason and the `triage_error`
indicator. -/
def triageErr (reason : String) : TriageResult :=
  ⟨"ESCALATE", .str reason, .arr [.str "triage_error"]⟩

/-- Processing of the triage reply text (`haiku-triage.ts` lines 129-179,
with the `JSON.parse` throw landing in the surrounding catch). -/
def triageReplyCore (cp : SecurityCheckpoint) (text : String) : TriageResult :=
  if text = "" then triageErr "Triage failed: Empty response from Haiku"
  else
    match jsonMatchSlice text.data with
    | none => triageErr "Triage failed: Could not parse JSON response"
    | some cand =>
      match jsonParse cand with
      | some (.obj fs) =>
        let cOk : Option String :=
          match objField fs "classification" with
          | some (.str s) =>
            if s = "SELF_HANDLE" ∨ s = "ESCALATE" ∨ s = "BLOCK" then some s else none
          | _ => none
        match cOk with
        | none => triageErr "Triage failed: Invalid classification in response"
        | some c =>
          if c = "SELF_HANDLE" ∧ shouldForceEscalate cp.command then
            match riskSpread (objField fs "risk_indicators") with
            | some inds =>
              ⟨"ESCALATE", .str "Auto-escalated: Command contains patterns requiring deeper review",
               .arr (.str "forced_escalation" :: inds)⟩
            | none => triageErr "Triage failed: spread error"
          else
            ⟨c, nullishD (objField fs "reason") (.str "No reason provided"),
             nullishD (objField fs "risk_indicators") (.arr [])⟩
      | _ => triageErr "Triage failed: JSON parse error"

/-- The exported `triageWithHaiku`: the result together with a flag
recording whether the API client was invoked at all; the forced-escalation
branch for `FORCE_ESCALATE_TYPES` returns before the call is made. -/
def triageWithHaiku (cp : SecurityCheckpoint) (api : ApiOutcome) : TriageResult × Bool :=
  if FORCE_ESCALATE_TYPES.contains cp.type then
    (⟨"ESCALATE", .str "Package installation requires Sonnet review (supply chain risk)",
      .arr [.str "force_escalate_type", .str (checkpointTypeStr cp.type)]⟩, false)
  else
    match api with
    | .exn true => (⟨"ESCALATE", .str "Triage failed: API timeout", .arr [.str "triage_timeout"]⟩, true)
    | .exn false => (triageErr "Triage failed: error", true)
    | .ok t => (triageReplyCore cp (t.getD ""), true)

/-- The fallback user message of the review stage. -/
def sonnetFallbackMsg : String :=
  "Automated security review failed. Please review this operation manually."

/-- An `ASK_USER` fallback with medium risk and the apology message. -/
def sonnetFallback (reason : String) : ReviewResult :=
  ⟨"ASK_USER", .str "medium", .str reason, some (.str sonnetFallbackMsg)⟩

/-- The `parsed.analysis?.intent ?? 'Review completed'` access. -/
def analysisIntent (fs : List (String × Json)) : Json :=
  match objField fs "analysis" with
  | some (.obj afs) => nullishD (objField afs "intent") (.str "Review completed")
  | _ => .str "Review completed"

/-- Processing of the review reply text (`sonnet-review.ts` lines 143-197,
with the `JSON.parse` throw landing in the surrounding catch). -/
def sonnetReplyCore (text : String) : ReviewResult :=
  if text = "" then sonnetFallback "Review failed: Empty response from Sonnet"
  else
    match jsonMatchSlice text.data with
    | none => sonnetFallback "Review failed: Could not parse JSON response"
    | some cand =>
      match jsonParse cand with
      | some (.obj fs) =>
        let vdef := nullishD (objField fs "verdict") (.str "ASK_USER")
        match asStr vdef with
        | some v =>
          if v = "ALLOW" ∨ v = "ASK_USER" ∨ v = "BLOCK" then
            ⟨v, nullishD (objField fs "risk_level") (.str "medium"), analysisIntent fs,
             match objField fs "user_message" with
             | some m => if jsTruthy m then some m else none
             | none => none⟩
          else sonnetFallback "Review failed: Invalid verdict in response"
        | none => sonnetFallback "Review failed: Invalid verdict in response"
      | _ => sonnetFallback "Review failed: JSON parse error"

/-- The exported `reviewWithSonnet` (the checkpoint and triage result only
shape the prompt, which does not influence the mapping of the reply). -/
def reviewWithSonnet (_cp : SecurityCheckpoint) (_triage : TriageResult)
    (api : ApiOutcome) : ReviewResult :=
  match api with
  | .exn true =>
    ⟨"ASK_USER", .str "medium", .str "Review failed: API timeout",
     some (.str "Security review timed out. Please review this operation manually.")⟩
  | .exn false => sonnetFallback "Review failed: error"
  | .ok t => sonnetReplyCore (t.getD "")

/-- The raw `verdict` field that the review-stage extraction pipeline
reaches on a reply text, if any. -/
def sonnetVerdictRaw (text : String) : Option Json :=
  if text = "" then none
  else
    match jsonMatchSlice text.data with
    | none => none
    | some cand =>
      match jsonParse cand with
      | some (.obj fs) => objField fs "verdict"
      | _ => none

/-- Whether a review reply is reducible to a valid JSON object whose
`verdict` field is one of the three admissible verdict strings. -/
def sonnetHasValidVerdict (text : String) : Bool :=
  match sonnetVerdictRaw text with
  | some (.str s) => s == "ALLOW" || s == "ASK_USER" || s == "BLOCK"
  | _ => false

/-- The raw `classification` field that the triage-stage extraction
pipeline reaches on a reply text, if any. -/
def triageClassRaw (text : String) : Option Json :=
  if text = "" then none
  else
    match jsonMatchSlice text.data with
    | none => none
    | some cand =>
      match jsonParse cand with
      | some (.obj fs) => objField fs "classification"
      | _ => none

/-- Whether a triage reply is reducible to a valid JSON object whose
`classification` field is one of the three admissible classifications. -/
def triageHasValidClass (text : String) : Bool :=
  match triageClassRaw text with
  | some (.str s) => s == "SELF_HANDLE" || s == "ESCALATE" || s == "BLOCK"
  | _ => false

/-!
Embedding of `src/hook.ts` (`processPermissionRequest` and the wire
mapping of `runHook`).

The user-configured regex tester `safeRegexTest` compiles arbitrary user
patterns, so it enters the embedding as an opaque function parameter
`tester`; its second argument is the raw `command` value, which may be
absent.  The Anthropic client is abstracted as predetermined outcomes of
the (at most one) triage call and the (at most one) review call.
-/

/-- Display coercion of a `Json` value interpolated into a template
literal (`String(value)`): arrays join their displayed elements with
commas, nullish array elements display as empty, objects display as
`[object Object]`.  Number lexemes are shown as parsed, and the fuel
bounds the (in practice tiny) display nesting depth. -/
def jsDisplayF : Nat → Json → String
  | _, .null => "null"
  | _, .bool b => if b then "true" else "false"
  | _, .num lexeme => lexeme
  | _, .str s => s
  | 0, _ => ""
  | d + 1, .arr xs =>
    String.intercalate "," (xs.map fun x => match x with | .null => "" | y => jsDisplayF d y)
  | _ + 1, .obj _ => "[object Object]"

/-- Display coercion with ample fuel. -/
def jsDisplay (v : Json) : String := jsDisplayF 99 v

/-- The `HookDecision` union. -/
inductive HookDecision where
  | allow
  | deny
  | needsReview
deriving DecidableEq, Repr

/-- The `DecisionSource` union. -/
inductive DecisionSource where
  | instantAllow
  | instantBlock
  | highRisk
  | trustedDomain
  | noCheckpoint
  | checkpoint
  | nonBashTool
  | haiku
  | sonnet
deriving DecidableEq, Repr

/-- The configuration fields consumed by `processPermissionRequest`
(`customPatterns.allow`, `customPatterns.block`, `allowedMCPTools`). -/
structure VsConfig where
  customAllow : List String
  customBlock : List String
  allowedMCPTools : List String
deriving Repr

/-- Predetermined outcomes of the two possible API calls. -/
structure ClientModel where
  triageApi : ApiOutcome
  reviewApi : ApiOutcome

/-- The hook input fields the pipeline consumes. -/
structure PermissionRequestInput where
  tool_name : String
  tool_input : ToolInput
deriving Repr

/-- The `ProcessResult` record. -/
structure ProcessResult where
  decision : HookDecision
  reason : String
  source : DecisionSource
  checkpoint : Option SecurityCheckpoint
  userMessage : Option String
  timeoutSeconds : Option Nat
deriving Repr

/-- The `TIMEOUT_SECONDS` constant. -/
def TIMEOUT_SECONDS : Nat := 7

/-- The `PLAN_MODE_TIMEOUT_SECONDS` constant (72 hours). -/
def PLAN_MODE_TIMEOUT_SECONDS : Nat := 72 * 60 * 60

/-- The `SAFE_NON_BASH_TOOLS` list. -/
def SAFE_NON_BASH_TOOLS : List String :=
  ["WebFetch", "WebSearch", "Task", "Glob", "Grep", "LS", "TodoRead", "TodoWrite", "NotebookRead"]

/-- Step 1 blocked-file response (a sensitive path on a Write/Edit/Read
request). -/
def fileBlockResult (fc : FileCheckResult) : ProcessResult :=
  let severityLabel := if fc.severity = some .critical then "SENSITIVE FILE" else "CAUTION"
  let legitimateUsesText :=
    match fc.legitimateUses with
    | some (u :: us) => "\nCommon uses: " ++ String.intercalate ", " (u :: us)
    | _ => ""
  ⟨.needsReview, "[" ++ severityLabel ++ "] " ++ fc.reason.getD "undefined", .highRisk, none,
   some ("[" ++ severityLabel ++ "] " ++ fc.reason.getD "undefined" ++
         " (Auto-reject in 7s)\n\nPotential risk: " ++ fc.risk.getD "undefined" ++
         legitimateUsesText ++ "\n\nOnly proceed if you know what you\x27re doing."),
   none⟩

/-- Step 2a blocked-notebook response (no `Common uses` line in this
branch of the source). -/
def notebookBlockResult (fc : FileCheckResult) : ProcessResult :=
  let severityLabel := if fc.severity = some .critical then "SENSITIVE FILE" else "CAUTION"
  ⟨.needsReview, "[" ++ severityLabel ++ "] " ++ fc.reason.getD "undefined", .highRisk, none,
   some ("[" ++ severityLabel ++ "] " ++ fc.reason.getD "undefined" ++
         " (Auto-reject in 7s)\n\nPotential risk: " ++ fc.risk.getD "undefined" ++
         "\n\nOnly proceed if you know what you\x27re doing."),
   none⟩

/-- Step 8 of the pipeline: the LLM cascade, entered when a checkpoint
was detected and no earlier stage terminated the decision. -/
def processLlm (client : Option ClientModel) (cp : SecurityCheckpoint) : ProcessResult :=
  match client with
  | none =>
    ⟨.needsReview, "Checkpoint triggered: " ++ checkpointTypeStr cp.type ++ " - " ++ cp.description,
     .checkpoint, some cp, none, none⟩
  | some cl =>
    let triage := (triageWithHaiku cp cl.triageApi).1
    if triage.classification = "BLOCK" then
      ⟨.deny, "Blocked by Haiku: " ++ jsDisplay triage.reason, .haiku, none, none, none⟩
    else if triage.classification = "SELF_HANDLE" then
      ⟨.allow, "Approved by Haiku: " ++ jsDisplay triage.reason, .haiku, none, none, none⟩
    else
      let review := reviewWithSonnet cp triage cl.reviewApi
      if review.verdict = "BLOCK" then
        ⟨.deny, "Blocked by Sonnet: " ++ jsDisplay review.reason, .sonnet, none,
         review.userMessage.map jsDisplay, none⟩
      else if review.verdict = "ALLOW" then
        ⟨.allow, "Approved by Sonnet: " ++ jsDisplay review.reason, .sonnet, none, none, none⟩
      else
        ⟨.needsReview, jsDisplay review.reason, .sonnet, some cp,
         review.userMessage.map jsDisplay, none⟩

/-- Step 7 of the pipeline: the trusted-domain short circuit, reachable
only for a checkpoint of type `network`, falling through to the LLM
cascade otherwise. -/
def processCheckpointStep (client : Option ClientModel) (cp : SecurityCheckpoint)
    (command : String) : ProcessResult :=
  if cp.type = .network then
    let domainResult := checkTrustedDomains command
    if domainResult.allTrusted && !domainResult.urls.isEmpty then
      ⟨.allow, "All URLs from trusted domains: " ++ String.intercalate ", " domainResult.trustedUrls,
       .trustedDomain, none, none, none⟩
    else processLlm client cp
  else processLlm client cp

/-- Steps 3 to 8 of the pipeline for the Bash tool.  An absent `command`
is the JavaScript `undefined`; every guard entered below begins with a
falsiness test under which `undefined` and the empty string take the same
branch, so the absent command is passed on as the empty string. -/
def processBash (tester : String → Option String → Bool) (config : VsConfig)
    (client : Option ClientModel) (command? : Option String) : ProcessResult :=
  match config.customAllow.find? fun p => tester p command? with
  | some p => ⟨.allow, "Custom allow pattern: " ++ p, .instantAllow, none, none, none⟩
  | none =>
  match config.customBlock.find? fun p => tester p command? with
  | some p =>
    ⟨.needsReview, "Custom block pattern: " ++ p, .highRisk, none,
     some ("[CUSTOM BLOCK] Matched pattern: " ++ p ++
           "\n\nThis command was blocked by your custom config.\n\nAuto-reject in 7s."),
     none⟩
  | none =>
  let command := command?.getD ""
  let allowResult := checkInstantAllow command
  if allowResult.allowed then
    ⟨.allow, allowResult.reason.getD "Safe command pattern", .instantAllow, none, none, none⟩
  else
    let highRisk := checkHighRiskPatterns command
    if highRisk.detected then
      let severityLabel := if highRisk.severity = some .critical then "HIGH RISK" else "CAUTION"
      let legitimateUsesText :=
        match highRisk.legitimateUses with
        | some (u :: us) => "\nCommon uses: " ++ String.intercalate ", " (u :: us)
        | _ => ""
      ⟨.needsReview, "[" ++ severityLabel ++ "] " ++ highRisk.description.getD "undefined",
       .highRisk, none,
       some ("[" ++ severityLabel ++ "] " ++ highRisk.description.getD "undefined" ++
             " (Auto-reject in 7s)\n\nPotential risk: " ++ highRisk.risk.getD "undefined" ++
             legitimateUsesText ++ "\n\nOnly proceed if you know what you\x27re doing."),
       none⟩
    else
      match detectCheckpoint command with
      | none => ⟨.allow, "No security checkpoint triggered", .noCheckpoint, none, none, none⟩
      | some cp => processCheckpointStep client cp command

/-- The exported `processPermissionRequest` of `hook.ts`. -/
def processPermissionRequest (tester : String → Option String → Bool)
    (input : PermissionRequestInput) (config : VsConfig)
    (client : Option ClientModel) : ProcessResult :=
  if input.tool_name = "Write" ∨ input.tool_name = "Edit" ∨ input.tool_name = "Read" then
    let fileCheck := checkFileTool input.tool_name input.tool_input
    if fileCheck.blocked then fileBlockResult fileCheck
    else ⟨.allow, "File tool " ++ input.tool_name ++ " with safe path", .nonBashTool, none, none, none⟩
  else if input.tool_name ≠ "Bash" then
    if input.tool_name = "NotebookEdit" then
      match input.tool_input.notebook_path with
      | some notebookPath =>
        if notebookPath = "" then
          ⟨.allow, "NotebookEdit with safe path", .nonBashTool, none, none, none⟩
        else
          let fileCheck := checkFileTool "Edit" ⟨none, some notebookPath, none⟩
          if fileCheck.blocked then notebookBlockResult fileCheck
          else ⟨.allow, "NotebookEdit with safe path", .nonBashTool, none, none, none⟩
      | none => ⟨.allow, "NotebookEdit with safe path", .nonBashTool, none, none, none⟩
    else if input.tool_name = "ExitPlanMode" then
      ⟨.needsReview, "Plan mode exit requires user approval", .nonBashTool, none,
       some ("[PLAN APPROVAL REQUIRED] Claude wants to exit plan mode and execute." ++
             "\n\nPlease review the plan and click \"Allow\" to proceed." ++
             "\n\nThis will auto-reject if not approved."),
       some PLAN_MODE_TIMEOUT_SECONDS⟩
    else if input.tool_name.startsWith "mcp__" then
      let isAllowed := config.allowedMCPTools.any fun pattern =>
        if pattern.endsWith "*" then input.tool_name.startsWith (pattern.dropRight 1)
        else input.tool_name = pattern
      if isAllowed then
        ⟨.allow, "MCP tool " ++ input.tool_name ++ " is pre-approved in config", .nonBashTool,
         none, none, none⟩
      else
        ⟨.needsReview, "MCP tool " ++ input.tool_name ++ " requires approval", .nonBashTool, none,
         some ("[MCP TOOL] " ++ input.tool_name ++
               "\n\nMCP tools require explicit approval. Click \"Allow\" to proceed." ++
               "\n\nAuto-reject in 7s."),
         none⟩
    else if SAFE_NON_BASH_TOOLS.contains input.tool_name then
      ⟨.allow, "Safe tool: " ++ input.tool_name, .nonBashTool, none, none, none⟩
    else
      ⟨.needsReview, "Unknown tool " ++ input.tool_name ++ " requires approval", .nonBashTool, none,
       some ("[UNKNOWN TOOL] " ++ input.tool_name ++
             "\n\nThis tool is not recognized. Click \"Allow\" to proceed.\n\nAuto-reject in 7s."),
       none⟩
  else processBash tester config client input.tool_input.command

/-- The wire behaviour produced by `runHook` for a decision: an `allow`
is emitted immediately, while both `deny` and `needs-review` wait out the
timeout window and then emit `deny`. -/
def wireBehavior (r : ProcessResult) : String :=
  if r.decision = .allow then "allow" else "deny"

/-!
Proof infrastructure: scanners used to state and prove properties of the
sanitizer and of the read-sensitive path set.
-/

/-- Whether the input starts with the CDATA closer sequence. -/
def isCdataStart : List Char → Bool
  | ']' :: ']' :: '>' :: _ => true
  | _ => false

/-- Absence of the CDATA closer sequence anywhere in the input. -/
def noCdata : List Char → Bool
  | ']' :: ']' :: '>' :: _ => false
  | _ :: rest => noCdata rest
  | [] => true

/-- Absence of three consecutive newlines anywhere in the input. -/
def noTriple : List Char → Bool
  | '\n' :: '\n' :: '\n' :: _ => false
  | _ :: rest => noTriple rest
  | [] => true

/-- Number of leading newlines. -/
def leadNl (l : List Char) : Nat :=
  (l.takeWhile fun c => c == '\n').length

/-- Scanner mirroring the recursion of `collapseNlAux`: true when no
newline is preceded by two consecutive newlines, counting `run` virtual
newlines before the start. -/
def noTripleAux : Nat → List Char → Bool
  | run, '\n' :: rest => if run ≥ 2 then false else noTripleAux (run + 1) rest
  | _, _ :: rest => noTripleAux 0 rest
  | _, [] => true

/-- Whether a path, after normalization, matches a read-sensitive entry of
severity `critical`. -/
def readSensitiveCriticalHit (p : String) : Bool :=
  READ_SENSITIVE_PATHS.any fun e => e.severity == .critical && reTest e.pattern (normalizePath p)

/-!
Claim theorems.
-/

/-- C1: the specification states that `commit`, `checkout`, `merge`,
`rebase`, `pull`, `fetch`, `add`, `stash`, `cherry-pick`, `tag` and
`remote` must not be instant-allowed, and the repository's own test suite
(`tests/instant-allow.test.ts`) asserts `allowed === false` for each of
them; `checkInstantAllow` nevertheless instant-allows every one of these
hook-bearing git subcommands, because they all sit in
`SAFE_GIT_COMMANDS`. -/
theorem c1_hook_bearing_git_commands_are_instant_allowed :
    (checkInstantAllow "git commit -m hello").allowed = true ∧
    (checkInstantAllow "git checkout main").allowed = true ∧
    (checkInstantAllow "git merge feature-branch").allowed = true ∧
    (checkInstantAllow "git rebase main").allowed = true ∧
    (checkInstantAllow "git pull").allowed = true ∧
    (checkInstantAllow "git fetch").allowed = true ∧
    (checkInstantAllow "git add .").allowed = true ∧
    (checkInstantAllow "git stash").allowed = true ∧
    (checkInstantAllow "git cherry-pick abc123").allowed = true ∧
    (checkInstantAllow "git tag v1.0.0").allowed = true ∧
    (checkInstantAllow "git remote add origin url").allowed = true := by
  refine ⟨?_, ?_, ?_, ?_, ?_, ?_, ?_, ?_, ?_, ?_, ?_⟩ <;> rfl

/-- C5: for a checkpoint of kind `package_install`, `triageWithHaiku`
returns the synthesized supply-chain `ESCALATE` result without invoking
the API client (the returned flag records whether `messages.create` was
reached), independently of what the client would have answered. -/
theorem c5_package_install_skips_triage_call :
    ∀ (cp : SecurityCheckpoint) (api : ApiOutcome), cp.type = .packageInstall →
      triageWithHaiku cp api =
        (⟨"ESCALATE", .str "Package installation requires Sonnet review (supply chain risk)",
          .arr [.str "force_escalate_type", .str "package_install"]⟩, false) := by
  intro cp api h
  cases cp with
  | mk t c d =>
    cases h
    rfl

/-- C5 witness: the theorem applied to a concrete `npm install`
checkpoint and a would-be `SELF_HANDLE` API reply. -/
theorem c5_package_install_skips_triage_call_witness :
    triageWithHaiku ⟨.packageInstall, "npm install left-pad", "npm install"⟩
        (.ok (some "\x7b\"classification\":\"SELF_HANDLE\"\x7d")) =
      (⟨"ESCALATE", .str "Package installation requires Sonnet review (supply chain risk)",
        .arr [.str "force_escalate_type", .str "package_install"]⟩, false) :=
  c5_package_install_skips_triage_call _ _ rfl

/-- C10: a command from which no URL is extracted is reported by
`checkTrustedDomains` as all-trusted, with no risky URL and all four URL
lists empty. -/
theorem c10_no_urls_reports_all_trusted :
    ∀ command : String, extractUrls command = [] →
      checkTrustedDomains command = ⟨true, false, [], [], [], []⟩ := by
  intro command h
  unfold checkTrustedDomains
  rw [h]
  rfl

/-- C10 witness: the theorem applied to `ls -la`, which contains no
URL. -/
theorem c10_no_urls_reports_all_trusted_witness :
    extractUrls "ls -la" = [] ∧
    checkTrustedDomains "ls -la" = ⟨true, false, [], [], [], []⟩ :=
  ⟨rfl, c10_no_urls_reports_all_trusted "ls -la" rfl⟩

set_option maxRecDepth 100000 in
/-- C2: the hook's trusted-domain short circuit tests only
`allTrusted && urls.length > 0` and ignores `hasRiskyUrls`, so a pure
network command whose only URL is on a trusted domain but matches a risky
URL pattern is allowed with source `trusted-domain` — the behaviour the
specification and the repository's own `hook.test.ts` rule out.  The
command below is the literal input of the test `should NOT auto-approve
raw.githubusercontent.com (user-controlled content)`. -/
theorem c2_risky_url_still_short_circuits :
    ∀ tester : String → Option String → Bool,
      (checkTrustedDomains
        "curl -o file.txt https://raw.githubusercontent.com/user/repo/main/script.sh").hasRiskyUrls
        = true ∧
      (processPermissionRequest tester
        ⟨"Bash", ⟨some "curl -o file.txt https://raw.githubusercontent.com/user/repo/main/script.sh",
          none, none⟩⟩ ⟨[], [], []⟩ none).decision = .allow ∧
      (processPermissionRequest tester
        ⟨"Bash", ⟨some "curl -o file.txt https://raw.githubusercontent.com/user/repo/main/script.sh",
          none, none⟩⟩ ⟨[], [], []⟩ none).source = .trustedDomain := by
  intro tester
  exact ⟨rfl, rfl, rfl⟩

/-- C9 counterexample: a `Read` request with no `file_path` and a `Bash`
request with no `command` are both allowed by the pipeline, not denied:
`checkFileTool` reports a missing path as not blocked (as the repository
test `should handle missing file_path` expects), and a missing command
falls through every falsiness guard to the no-checkpoint allow. -/
theorem c9_missing_field_is_allowed_counterexample :
    (processPermissionRequest (fun _ _ => false) ⟨"Read", ⟨none, none, none⟩⟩
      ⟨[], [], []⟩ none).decision = .allow ∧
    (processPermissionRequest (fun _ _ => false) ⟨"Read", ⟨none, none, none⟩⟩
      ⟨[], [], []⟩ none).source = .nonBashTool ∧
    (processPermissionRequest (fun _ _ => false) ⟨"Bash", ⟨none, none, none⟩⟩
      ⟨[], [], []⟩ none).decision = .allow ∧
    (processPermissionRequest (fun _ _ => false) ⟨"Bash", ⟨none, none, none⟩⟩
      ⟨[], [], []⟩ none).source = .noCheckpoint :=
  ⟨rfl, rfl, rfl, rfl⟩

/-- C9 amended: a request that is missing the required tool field is not
denied but allowed — a Write/Edit/Read request without `file_path` is
allowed with source `non-bash-tool` under any configuration, and a Bash
request without `command` is allowed with source `no-checkpoint` when no
custom patterns are configured (only invalid JSON on stdin produces the
generic deny, in `runHook`). -/
theorem c9_missing_field_results :
    (∀ (tester : String → Option String → Bool) (config : VsConfig)
       (client : Option ClientModel) (ti : ToolInput) (name : String),
       (name = "Write" ∨ name = "Edit" ∨ name = "Read") → ti.file_path = none →
       (processPermissionRequest tester ⟨name, ti⟩ config client).decision = .allow ∧
       (processPermissionRequest tester ⟨name, ti⟩ config client).source = .nonBashTool) ∧
    (∀ (tester : String → Option String → Bool) (client : Option ClientModel) (ti : ToolInput),
       ti.command = none →
       (processPermissionRequest tester ⟨"Bash", ti⟩ ⟨[], [], []⟩ client).decision = .allow ∧
       (processPermissionRequest tester ⟨"Bash", ti⟩ ⟨[], [], []⟩ client).source = .noCheckpoint) := by
  constructor
  · intro tester config client ti name hname hfp
    obtain ⟨cmd, fp, nb⟩ := ti
    have hfp2 : fp = none := hfp
    subst hfp2
    rcases hname with rfl | rfl | rfl <;> exact ⟨rfl, rfl⟩
  · intro tester client ti hcmd
    have key : processPermissionRequest tester ⟨"Bash", ti⟩ ⟨[], [], []⟩ client =
        processBash tester ⟨[], [], []⟩ client ti.command := rfl
    rw [key, hcmd]
    exact ⟨rfl, rfl⟩

/-- C9 witness: the amended theorem applied to an `Edit` request without
`file_path` and a `Bash` request without `command`. -/
theorem c9_missing_field_results_witness :
    ((processPermissionRequest (fun _ _ => true) ⟨"Edit", ⟨none, none, none⟩⟩
        ⟨["x"], [], []⟩ none).decision = .allow ∧
     (processPermissionRequest (fun _ _ => true) ⟨"Edit", ⟨none, none, none⟩⟩
        ⟨["x"], [], []⟩ none).source = .nonBashTool) ∧
    ((processPermissionRequest (fun _ _ => false) ⟨"Bash", ⟨none, none, none⟩⟩
        ⟨[], [], []⟩ none).decision = .allow ∧
     (processPermissionRequest (fun _ _ => false) ⟨"Bash", ⟨none, none, none⟩⟩
        ⟨[], [], []⟩ none).source = .noCheckpoint) :=
  ⟨c9_missing_field_results.1 _ _ _ _ "Edit" (Or.inr (Or.inl rfl)) rfl,
   c9_missing_field_results.2 _ _ _ rfl⟩

lemma processLlm_source_ne_trusted (client : Option ClientModel) (cp : SecurityCheckpoint) :
    (processLlm client cp).source ≠ DecisionSource.trustedDomain := by
  cases client with
  | none => exact fun h => nomatch h
  | some cl =>
    have key : processLlm (some cl) cp =
        (if (triageWithHaiku cp cl.triageApi).1.classification = "BLOCK" then
          ⟨.deny, "Blocked by Haiku: " ++ jsDisplay (triageWithHaiku cp cl.triageApi).1.reason,
           .haiku, none, none, none⟩
        else if (triageWithHaiku cp cl.triageApi).1.classification = "SELF_HANDLE" then
          ⟨.allow, "Approved by Haiku: " ++ jsDisplay (triageWithHaiku cp cl.triageApi).1.reason,
           .haiku, none, none, none⟩
        else if (reviewWithSonnet cp (triageWithHaiku cp cl.triageApi).1 cl.reviewApi).verdict
            = "BLOCK" then
          ⟨.deny, "Blocked by Sonnet: " ++
             jsDisplay (reviewWithSonnet cp (triageWithHaiku cp cl.triageApi).1 cl.reviewApi).reason,
           .sonnet, none,
           (reviewWithSonnet cp (triageWithHaiku cp cl.triageApi).1 cl.reviewApi).userMessage.map
             jsDisplay, none⟩
        else if (reviewWithSonnet cp (triageWithHaiku cp cl.triageApi).1 cl.reviewApi).verdict
            = "ALLOW" then
          ⟨.allow, "Approved by Sonnet: " ++
             jsDisplay (reviewWithSonnet cp (triageWithHaiku cp cl.triageApi).1 cl.reviewApi).reason,
           .sonnet, none, none, none⟩
        else
          ⟨.needsReview,
           jsDisplay (reviewWithSonnet cp (triageWithHaiku cp cl.triageApi).1 cl.reviewApi).reason,
           .sonnet, some cp,
           (reviewWithSonnet cp (triageWithHaiku cp cl.triageApi).1 cl.reviewApi).userMessage.map
             jsDisplay, none⟩) := rfl
    rw [key]
    split
    · exact fun h => nomatch h
    · split
      · exact fun h => nomatch h
      · split
        · exact fun h => nomatch h
        · split
          · exact fun h => nomatch h
          · exact fun h => nomatch h

/-- C4: when the detected checkpoint of a Bash command has any type other
than `network` — `script_execution`, `package_install`, `git_operation`,
`file_sensitive`, `env_modification` or `url_shortener` — the resulting
decision never carries source `trusted-domain`, whatever the
configuration, client behaviour and URLs in the command. -/
theorem c4_non_network_checkpoint_never_trusted_domain :
    ∀ (tester : String → Option String → Bool) (config : VsConfig)
      (client : Option ClientModel) (ti : ToolInput) (cmd : String) (cp : SecurityCheckpoint),
      ti.command = some cmd → detectCheckpoint cmd = some cp → cp.type ≠ .network →
      (processPermissionRequest tester ⟨"Bash", ti⟩ config client).source ≠ .trustedDomain := by
  intro tester config client ti cmd cp hcmd hdet htype
  have key : processPermissionRequest tester ⟨"Bash", ti⟩ config client =
      processBash tester config client ti.command := rfl
  rw [key, hcmd]
  unfold processBash
  split
  · exact fun h => nomatch h
  · split
    · exact fun h => nomatch h
    · dsimp only [Option.getD]
      split
      · exact fun h => nomatch h
      · split
        · exact fun h => nomatch h
        · split
          · exact fun h => nomatch h
          · rename_i heq
            rw [hdet] at heq
            cases heq
            unfold processCheckpointStep
            rw [if_neg htype]
            exact processLlm_source_ne_trusted client cp

/-- C4 witness: the theorem applied to `bash install.sh`, whose detected
checkpoint is `script_execution`, and to a `bit.ly` download, whose
detected checkpoint is `url_shortener` by the shortener pre-check. -/
theorem c4_non_network_checkpoint_never_trusted_domain_witness :
    ((processPermissionRequest (fun _ _ => false) ⟨"Bash", ⟨some "bash install.sh", none, none⟩⟩
       ⟨[], [], []⟩ none).source ≠ .trustedDomain) ∧
    ((processPermissionRequest (fun _ _ => false)
       ⟨"Bash", ⟨some "curl https://bit.ly/3xyz123 -o script.sh", none, none⟩⟩
       ⟨[], [], []⟩ none).source ≠ .trustedDomain) :=
  ⟨c4_non_network_checkpoint_never_trusted_domain _ _ _ _ "bash install.sh"
     ⟨.scriptExecution, "bash install.sh", "Running shell script with bash"⟩
     rfl rfl (by decide),
   c4_non_network_checkpoint_never_trusted_domain _ _ _ _
     "curl https://bit.ly/3xyz123 -o script.sh"
     ⟨.urlShortener, "curl https://bit.ly/3xyz123 -o script.sh",
      "URL shortener detected: https://bit.ly/3xyz123 - could redirect to malicious site"⟩
     rfl rfl (by decide)⟩

lemma any_imp_find?_isSome {α} (l : List α) (q : α → Bool) (x : α)
    (hx : x ∈ l) (hq : q x = true) : (l.find? q).isSome = true := by
  induction l with
  | nil => cases hx
  | cons y ys ih =>
    by_cases hy : q y = true
    · simp [List.find?, hy]
    · cases hx with
      | head => exact absurd hq hy
      | tail _ hx2 =>
        simp only [List.find?]
        rw [Bool.not_eq_true] at hy
        rw [hy]
        exact ih hx2

/-- C6: a `Read` request whose `file_path` matches, after normalization,
a read-sensitive entry of severity `critical` produces a decision with
source `high-risk` that is not an allow, and the wire behaviour emitted
for it is `deny`. -/
theorem c6_read_critical_path_denied :
    ∀ (tester : String → Option String → Bool) (config : VsConfig)
      (client : Option ClientModel) (ti : ToolInput) (p : String),
      ti.file_path = some p → readSensitiveCriticalHit p = true →
      (processPermissionRequest tester ⟨"Read", ti⟩ config client).source = .highRisk ∧
      (processPermissionRequest tester ⟨"Read", ti⟩ config client).decision = .needsReview ∧
      wireBehavior (processPermissionRequest tester ⟨"Read", ti⟩ config client) = "deny" := by
  intro tester config client ti p hfp hcrit
  by_cases hpe : p = ""
  · subst hpe
    exact absurd hcrit (by decide)
  · have hcf : checkFileTool "Read" ti = checkFilePath p FileAction.read := by
      unfold checkFileTool
      rw [hfp]
      dsimp only
      rw [if_neg hpe]
      rfl
    have hb : (checkFileTool "Read" ti).blocked = true := by
      rw [hcf]
      obtain ⟨e, he, hq⟩ := List.any_eq_true.mp hcrit
      have hq2 : reTest e.pattern (normalizePath p) = true := ((Bool.and_eq_true _ _).mp hq).2
      have hsome := any_imp_find?_isSome READ_SENSITIVE_PATHS
        (fun e => reTest e.pattern (normalizePath p)) e he hq2
      obtain ⟨e2, hfind⟩ := Option.isSome_iff_exists.mp hsome
      have key : checkFilePath p FileAction.read =
          (match READ_SENSITIVE_PATHS.find? fun e => reTest e.pattern (normalizePath p) with
           | some e =>
             (⟨true, some ("Reading " ++ e.description ++ " (" ++ normalizePath p ++ ")"),
              some e.severity, some e.risk, some e.legitimateUses⟩ : FileCheckResult)
           | none => ⟨false, none, none, none, none⟩) := rfl
      rw [key, hfind]
    have key : processPermissionRequest tester ⟨"Read", ti⟩ config client =
        (if (checkFileTool "Read" ti).blocked then fileBlockResult (checkFileTool "Read" ti)
         else ⟨.allow, "File tool " ++ "Read" ++ " with safe path", .nonBashTool,
               none, none, none⟩) := rfl
    rw [key, if_pos hb]
    exact ⟨rfl, rfl, rfl⟩

/-- C6 witness: the theorem applied to a read of `~/.ssh/id_rsa`. -/
theorem c6_read_critical_path_denied_witness :
    readSensitiveCriticalHit "~/.ssh/id_rsa" = true ∧
    (processPermissionRequest (fun _ _ => false) ⟨"Read", ⟨none, some "~/.ssh/id_rsa", none⟩⟩
      ⟨[], [], []⟩ none).source = .highRisk ∧
    wireBehavior (processPermissionRequest (fun _ _ => false)
      ⟨"Read", ⟨none, some "~/.ssh/id_rsa", none⟩⟩ ⟨[], [], []⟩ none) = "deny" :=
  ⟨by decide,
   (c6_read_critical_path_denied _ _ _ _ "~/.ssh/id_rsa" rfl (by decide)).1,
   (c6_read_critical_path_denied _ _ _ _ "~/.ssh/id_rsa" rfl (by decide)).2.2⟩

lemma hasChainOrSubst_cons (a : Char) (l : List Char) (h : hasChainOrSubst l = true) :
    hasChainOrSubst (a :: l) = true := by
  unfold hasChainOrSubst
  split
  · rfl
  · split
    · rfl
    · exact h

lemma hasChainOrSubst_of_mem (l : List Char) (c : Char) (hc : c ∈ l)
    (hcc : (c == ';' || c == '&' || c == '|' || c == backtickCh) = true) :
    hasChainOrSubst l = true := by
  induction l with
  | nil => cases hc
  | cons a rest ih =>
    cases hc with
    | head =>
      unfold hasChainOrSubst
      rw [if_pos hcc]
    | tail _ h2 => exact hasChainOrSubst_cons a rest (ih h2)

lemma hasChain_of_dollarParen (pre post : List Char) :
    hasChainOrSubst (pre ++ '$' :: '(' :: post) = true := by
  induction pre with
  | nil =>
    rw [List.nil_append]
    unfold hasChainOrSubst
    rw [if_neg (by decide), if_pos (by rfl)]
  | cons a pre2 ih =>
    rw [List.cons_append]
    exact hasChainOrSubst_cons a _ ih

lemma mem_dropWhile_of_not (l : List Char) (c : Char) (hc : c ∈ l) (hw : isJsWs c = false) :
    c ∈ l.dropWhile isJsWs := by
  induction l with
  | nil => cases hc
  | cons a rest ih =>
    rw [List.dropWhile_cons]
    by_cases ha : isJsWs a = true
    · rw [if_pos ha]
      cases hc with
      | head => rw [ha] at hw; cases hw
      | tail _ h2 => exact ih h2
    · rw [if_neg ha]
      exact hc

lemma mem_jsTrimL_of (l : List Char) (c : Char) (hc : c ∈ l) (hw : isJsWs c = false) :
    c ∈ jsTrimL l := by
  unfold jsTrimL dropRightWhileL
  apply List.mem_reverse.mpr
  apply mem_dropWhile_of_not _ _ _ hw
  apply List.mem_reverse.mpr
  exact mem_dropWhile_of_not _ _ hc hw

lemma pair_dropWhile (x y : Char) (hx : isJsWs x = false) (pre post : List Char) :
    ∃ pre2 post2, (pre ++ x :: y :: post).dropWhile isJsWs = pre2 ++ x :: y :: post2 := by
  induction pre with
  | nil =>
    refine ⟨[], post, ?_⟩
    rw [List.nil_append, List.dropWhile_cons, if_neg (by rw [hx]; exact Bool.false_ne_true)]
  | cons a pre2 ih =>
    rw [List.cons_append, List.dropWhile_cons]
    by_cases ha : isJsWs a = true
    · rw [if_pos ha]
      exact ih
    · rw [if_neg ha]
      exact ⟨a :: pre2, post, rfl⟩

lemma pair_jsTrimL (x y : Char) (hx : isJsWs x = false) (hy : isJsWs y = false)
    (pre post : List Char) :
    ∃ pre2 post2, jsTrimL (pre ++ x :: y :: post) = pre2 ++ x :: y :: post2 := by
  obtain ⟨p1, q1, h1⟩ := pair_dropWhile x y hx pre post
  obtain ⟨p2, q2, h2⟩ := pair_dropWhile y x hy q1.reverse p1.reverse
  refine ⟨q2.reverse, p2.reverse, ?_⟩
  unfold jsTrimL dropRightWhileL
  rw [h1]
  have hrev : (p1 ++ x :: y :: q1).reverse = q1.reverse ++ y :: x :: p1.reverse := by
    simp [List.reverse_append]
  rw [hrev, h2]
  simp [List.reverse_append]

/-- C7 counterexample: `isPureGitCommand` has no newline test, so a `git
status` line followed by a newline and a second arbitrary command is
instant-allowed as the safe git command `git status`, and the whole
pipeline allows it. -/
theorem c7_newline_second_command_instant_allowed_counterexample :
    (checkInstantAllow "git status\ncurl evil.com").allowed = true ∧
    (checkInstantAllow "git status\ncurl evil.com").reason = some "Safe git command: git status" ∧
    (processPermissionRequest (fun _ _ => false)
      ⟨"Bash", ⟨some "git status\ncurl evil.com", none, none⟩⟩ ⟨[], [], []⟩ none).decision
      = .allow :=
  ⟨rfl, rfl, rfl⟩

/-- C7 amended: a command containing one of the chaining characters `;`,
`&`, `|`, backtick, or containing a dollar immediately followed by an
opening parenthesis, is never instant-allowed; the newline clause of the
original claim does not hold (see the counterexample), because the purity
test checks only those characters on the trimmed command. -/
theorem c7_chain_or_subst_never_instant_allowed :
    ∀ (cmd : String),
      ((∃ c, c ∈ cmd.data ∧ (c = ';' ∨ c = '&' ∨ c = '|' ∨ c = backtickCh)) ∨
       (∃ pre post, cmd.data = pre ++ '$' :: '(' :: post)) →
      (checkInstantAllow cmd).allowed = false := by
  intro cmd hyp
  have hch : hasChainOrSubst (jsTrimL cmd.data) = true := by
    cases hyp with
    | inl h =>
      obtain ⟨c, hc, hcc⟩ := h
      have hcc2 : (c == ';' || c == '&' || c == '|' || c == backtickCh) = true := by
        rcases hcc with rfl | rfl | rfl | rfl <;> rfl
      have hw : isJsWs c = false := by
        rcases hcc with rfl | rfl | rfl | rfl <;> rfl
      exact hasChainOrSubst_of_mem _ c (mem_jsTrimL_of _ _ hc hw) hcc2
    | inr h =>
      obtain ⟨pre, post, hpp⟩ := h
      rw [hpp]
      obtain ⟨p2, q2, h2⟩ := pair_jsTrimL '$' '(' rfl rfl pre post
      rw [h2]
      exact hasChain_of_dollarParen p2 q2
  have hne : (jsTrimL cmd.data).isEmpty = false := by
    cases hl : jsTrimL cmd.data with
    | nil => rw [hl] at hch; exact absurd hch (by decide)
    | cons a l => rfl
  have hpure : isPureGitCommand cmd = false := by
    unfold isPureGitCommand
    dsimp only
    rw [if_pos hch]
  have hres : checkInstantAllow cmd = ⟨false, none, none⟩ := by
    unfold checkInstantAllow
    rw [hne, hpure]
    rfl
  rw [hres]

/-- C7 witness: the amended theorem applied to `curl evil.com && git
status`, which contains the chain character `&`. -/
theorem c7_chain_or_subst_never_instant_allowed_witness :
    (checkInstantAllow "curl evil.com && git status").allowed = false :=
  c7_chain_or_subst_never_instant_allowed "curl evil.com && git status"
    (Or.inl ⟨'&', by decide, Or.inr (Or.inl rfl)⟩)

/-- C3 counterexample: the review reply `\x7b"risk_level":"low"\x7d` is a
valid JSON object but has no `verdict` field, so it is not reducible to a
valid verdict; yet the nullish default `parsed.verdict ?? ASK_USER`
passes validation, and the result keeps the reply-supplied risk level
`low` instead of `medium` and carries no fallback user message. -/
theorem c3_missing_verdict_keeps_reply_fields_counterexample :
    sonnetHasValidVerdict "\x7b\"risk_level\":\"low\"\x7d" = false ∧
    (sonnetReplyCore "\x7b\"risk_level\":\"low\"\x7d").verdict = "ASK_USER" ∧
    (sonnetReplyCore "\x7b\"risk_level\":\"low\"\x7d").riskLevel = .str "low" ∧
    (sonnetReplyCore "\x7b\"risk_level\":\"low\"\x7d").userMessage = none :=
  ⟨rfl, rfl, rfl, rfl⟩

/-- C3 amended: a thrown API error maps to the `ASK_USER` fallback with
medium risk; a reply text without a valid verdict always maps to verdict
`ASK_USER` — hence never `ALLOW` — though not always with medium risk and
the fallback message (see the counterexample); and a triage reply without
a valid classification always maps to classification `ESCALATE`. -/
theorem c3_invalid_reply_never_allow :
    (∀ (cp : SecurityCheckpoint) (tr : TriageResult) (b : Bool),
       (reviewWithSonnet cp tr (.exn b)).verdict = "ASK_USER" ∧
       (reviewWithSonnet cp tr (.exn b)).riskLevel = .str "medium") ∧
    (∀ text, sonnetHasValidVerdict text = false →
       (sonnetReplyCore text).verdict = "ASK_USER") ∧
    (∀ (cp : SecurityCheckpoint) (text : String), triageHasValidClass text = false →
       (triageReplyCore cp text).classification = "ESCALATE") := by
  refine ⟨?_, ?_, ?_⟩
  · intro cp tr b
    cases b <;> exact ⟨rfl, rfl⟩
  · intro text hv
    by_cases ht : text = ""
    · unfold sonnetReplyCore
      rw [if_pos ht]
      rfl
    · cases hms : jsonMatchSlice text.data with
      | none =>
        unfold sonnetReplyCore
        rw [if_neg ht, hms]
        rfl
      | some cand =>
        cases hjp : jsonParse cand with
        | none =>
          unfold sonnetReplyCore
          rw [if_neg ht, hms]
          dsimp only
          rw [hjp]
          rfl
        | some v =>
          cases v with
          | null =>
            unfold sonnetReplyCore
            rw [if_neg ht, hms]
            dsimp only
            rw [hjp]
            rfl
          | bool b =>
            unfold sonnetReplyCore
            rw [if_neg ht, hms]
            dsimp only
            rw [hjp]
            rfl
          | num s =>
            unfold sonnetReplyCore
            rw [if_neg ht, hms]
            dsimp only
            rw [hjp]
            rfl
          | str s =>
            unfold sonnetReplyCore
            rw [if_neg ht, hms]
            dsimp only
            rw [hjp]
            rfl
          | arr xs =>
            unfold sonnetReplyCore
            rw [if_neg ht, hms]
            dsimp only
            rw [hjp]
            rfl
          | obj fs =>
            cases hvf : objField fs "verdict" with
            | none =>
              unfold sonnetReplyCore
              rw [if_neg ht, hms]
              dsimp only
              rw [hjp]
              dsimp only
              rw [hvf]
              rfl
            | some j =>
              cases j with
              | str s =>
                have hvr : sonnetVerdictRaw text = some (.str s) := by
                  unfold sonnetVerdictRaw
                  rw [if_neg ht, hms]
                  dsimp only
                  rw [hjp]
                  dsimp only
                  rw [hvf]
                have hv2 : (s == "ALLOW" || s == "ASK_USER" || s == "BLOCK") = false := by
                  unfold sonnetHasValidVerdict at hv
                  rw [hvr] at hv
                  exact hv
                have hns : ¬(s = "ALLOW" ∨ s = "ASK_USER" ∨ s = "BLOCK") := by
                  intro hcon
                  rcases hcon with rfl | rfl | rfl <;> exact absurd hv2 (by decide)
                unfold sonnetReplyCore
                rw [if_neg ht, hms]
                dsimp only
                rw [hjp]
                dsimp only
                rw [hvf]
                dsimp only [nullishD, asStr]
                rw [if_neg hns]
                rfl
              | null =>
                unfold sonnetReplyCore
                rw [if_neg ht, hms]
                dsimp only
                rw [hjp]
                dsimp only
                rw [hvf]
                rfl
              | bool b =>
                unfold sonnetReplyCore
                rw [if_neg ht, hms]
                dsimp only
                rw [hjp]
                dsimp only
                rw [hvf]
                rfl
              | num s =>
                unfold sonnetReplyCore
                rw [if_neg ht, hms]
                dsimp only
                rw [hjp]
                dsimp only
                rw [hvf]
                rfl
              | arr xs =>
                unfold sonnetReplyCore
                rw [if_neg ht, hms]
                dsimp only
                rw [hjp]
                dsimp only
                rw [hvf]
                rfl
              | obj gs =>
                unfold sonnetReplyCore
                rw [if_neg ht, hms]
                dsimp only
                rw [hjp]
                dsimp only
                rw [hvf]
                rfl
  · intro cp text hv
    by_cases ht : text = ""
    · unfold triageReplyCore
      rw [if_pos ht]
      rfl
    · cases hms : jsonMatchSlice text.data with
      | none =>
        unfold triageReplyCore
        rw [if_neg ht, hms]
        rfl
      | some cand =>
        cases hjp : jsonParse cand with
        | none =>
          unfold triageReplyCore
          rw [if_neg ht, hms]
          dsimp only
          rw [hjp]
          rfl
        | some v =>
          cases v with
          | null =>
            unfold triageReplyCore
            rw [if_neg ht, hms]
            dsimp only
            rw [hjp]
            rfl
          | bool b =>
            unfold triageReplyCore
            rw [if_neg ht, hms]
            dsimp only
            rw [hjp]
            rfl
          | num s =>
            unfold triageReplyCore
            rw [if_neg ht, hms]
            dsimp only
            rw [hjp]
            rfl
          | str s =>
            unfold triageReplyCore
            rw [if_neg ht, hms]
            dsimp only
            rw [hjp]
            rfl
          | arr xs =>
            unfold triageReplyCore
            rw [if_neg ht, hms]
            dsimp only
            rw [hjp]
            rfl
          | obj fs =>
            cases hvf : objField fs "classification" with
            | none =>
              unfold triageReplyCore
              rw [if_neg ht, hms]
              dsimp only
              rw [hjp]
              dsimp only
              rw [hvf]
              rfl
            | some j =>
              cases j with
              | str s =>
                have hvr : triageClassRaw text = some (.str s) := by
                  unfold triageClassRaw
                  rw [if_neg ht, hms]
                  dsimp only
                  rw [hjp]
                  dsimp only
                  rw [hvf]
                have hv2 : (s == "SELF_HANDLE" || s == "ESCALATE" || s == "BLOCK") = false := by
                  unfold triageHasValidClass at hv
                  rw [hvr] at hv
                  exact hv
                have hns : ¬(s = "SELF_HANDLE" ∨ s = "ESCALATE" ∨ s = "BLOCK") := by
                  intro hcon
                  rcases hcon with rfl | rfl | rfl <;> exact absurd hv2 (by decide)
                unfold triageReplyCore
                rw [if_neg ht, hms]
                dsimp only
                rw [hjp]
                dsimp only
                rw [hvf]
                dsimp only
                rw [if_neg hns]
                rfl
              | null =>
                unfold triageReplyCore
                rw [if_neg ht, hms]
                dsimp only
                rw [hjp]
                dsimp only
                rw [hvf]
                rfl
              | bool b =>
                unfold triageReplyCore
                rw [if_neg ht, hms]
                dsimp only
                rw [hjp]
                dsimp only
                rw [hvf]
                rfl
              | num s =>
                unfold triageReplyCore
                rw [if_neg ht, hms]
                dsimp only
                rw [hjp]
                dsimp only
                rw [hvf]
                rfl
              | arr xs =>
                unfold triageReplyCore
                rw [if_neg ht, hms]
                dsimp only
                rw [hjp]
                dsimp only
                rw [hvf]
                rfl
              | obj gs =>
                unfold triageReplyCore
                rw [if_neg ht, hms]
                dsimp only
                rw [hjp]
                dsimp only
                rw [hvf]
                rfl

/-- C3 witness: the amended theorem applied to a thrown error, to the
non-JSON review reply `no json here`, and to the non-JSON triage reply
`garbage`. -/
theorem c3_invalid_reply_never_allow_witness :
    ((reviewWithSonnet ⟨.network, "c", "d"⟩ (triageErr "r") (.exn false)).verdict = "ASK_USER" ∧
     (reviewWithSonnet ⟨.network, "c", "d"⟩ (triageErr "r") (.exn false)).riskLevel
       = .str "medium") ∧
    (sonnetReplyCore "no json here").verdict = "ASK_USER" ∧
    (triageReplyCore ⟨.network, "c", "d"⟩ "garbage").classification = "ESCALATE" :=
  ⟨c3_invalid_reply_never_allow.1 ⟨.network, "c", "d"⟩ (triageErr "r") false,
   c3_invalid_reply_never_allow.2.1 "no json here" rfl,
   c3_invalid_reply_never_allow.2.2 ⟨.network, "c", "d"⟩ "garbage" rfl⟩

lemma cdata_guard (c : Char) (T : List Char) (h : isCdataStart (c :: T) = false) :
    ∀ l2, c = ']' → T = ']' :: '>' :: l2 → False := by
  intro l2 hc hT
  subst hc
  subst hT
  exact Bool.noConfusion h

lemma isCdataStart_shape (l : List Char) (h : isCdataStart l = true) :
    ∃ r, l = ']' :: ']' :: '>' :: r := by
  by_cases hex : ∃ r, l = ']' :: ']' :: '>' :: r
  · exact hex
  · rw [isCdataStart.eq_2 l fun rest hr => hex ⟨rest, hr⟩] at h
    exact Bool.noConfusion h

lemma replCdata_cons (c : Char) (T : List Char) (h : isCdataStart (c :: T) = false) :
    replCdata (c :: T) = c :: replCdata T :=
  replCdata.eq_2 c T (cdata_guard c T h)

lemma noCdata_cons (c : Char) (T : List Char) (h : isCdataStart (c :: T) = false) :
    noCdata (c :: T) = noCdata T :=
  noCdata.eq_2 c T (cdata_guard c T h)

lemma noCdata_head_false (c : Char) (rest : List Char) (h : noCdata (c :: rest) = true) :
    isCdataStart (c :: rest) = false := by
  cases hcs : isCdataStart (c :: rest) with
  | false => rfl
  | true =>
    obtain ⟨r, hr⟩ := isCdataStart_shape _ hcs
    rw [hr] at h
    exact Bool.noConfusion h

lemma noCdata_tail (c : Char) (rest : List Char) (h : noCdata (c :: rest) = true) :
    noCdata rest = true := by
  rw [noCdata_cons c rest (noCdata_head_false c rest h)] at h
  exact h

lemma repl_start (rest l2 : List Char) (h : replCdata rest = ']' :: '>' :: l2) :
    ∃ l3, rest = ']' :: '>' :: l3 := by
  cases hcs : isCdataStart rest with
  | true =>
    obtain ⟨r, hr⟩ := isCdataStart_shape rest hcs
    subst hr
    rw [show replCdata (']' :: ']' :: '>' :: r)
        = ']' :: ']' :: '&' :: 'g' :: 't' :: ';' :: replCdata r from rfl] at h
    injection h with h1 h2
    injection h2 with h3 h4
    exact absurd h3 (by decide)
  | false =>
    cases rest with
    | nil =>
      rw [show replCdata ([] : List Char) = [] from rfl] at h
      exact List.noConfusion h
    | cons a r =>
      rw [replCdata_cons a r hcs] at h
      injection h with h1 h2
      subst h1
      cases hcs2 : isCdataStart r with
      | true =>
        obtain ⟨r2, hr2⟩ := isCdataStart_shape r hcs2
        subst hr2
        rw [show replCdata (']' :: ']' :: '>' :: r2)
            = ']' :: ']' :: '&' :: 'g' :: 't' :: ';' :: replCdata r2 from rfl] at h2
        injection h2 with h3 h4
        exact absurd h3 (by decide)
      | false =>
        cases r with
        | nil =>
          rw [show replCdata ([] : List Char) = [] from rfl] at h2
          exact List.noConfusion h2
        | cons b r2 =>
          rw [replCdata_cons b r2 hcs2] at h2
          injection h2 with h3 h4
          subst h3
          exact ⟨r2, rfl⟩

lemma noCdata_replCdata (l : List Char) : noCdata (replCdata l) = true := by
  induction l using replCdata.induct with
  | case1 rest ih =>
    rw [show replCdata (']' :: ']' :: '>' :: rest)
        = ']' :: ']' :: '&' :: 'g' :: 't' :: ';' :: replCdata rest from rfl]
    rw [show noCdata (']' :: ']' :: '&' :: 'g' :: 't' :: ';' :: replCdata rest)
        = noCdata (replCdata rest) from rfl]
    exact ih
  | case2 c rest hguard ih =>
    rw [replCdata.eq_2 c rest hguard]
    have hg2 : ∀ l2, c = ']' → replCdata rest = ']' :: '>' :: l2 → False := by
      intro l2 hc hT
      obtain ⟨l3, hl3⟩ := repl_start rest l2 hT
      exact hguard l3 hc hl3
    rw [noCdata.eq_2 c (replCdata rest) hg2]
    exact ih
  | case3 => rfl

lemma replCdata_id (l : List Char) (h : noCdata l = true) : replCdata l = l := by
  induction l using replCdata.induct with
  | case1 rest ih => exact absurd h (by intro hh; exact Bool.noConfusion hh)
  | case2 c rest hguard ih =>
    rw [noCdata.eq_2 c rest hguard] at h
    rw [replCdata.eq_2 c rest hguard, ih h]
  | case3 => rfl

lemma collapse0_cons_eq (rest : List Char) (c : Char) (l2 : List Char) (hc : ¬ c = '\n')
    (h : collapseNlAux 0 rest = c :: l2) : ∃ r2, rest = c :: r2 ∧ collapseNlAux 0 r2 = l2 := by
  cases rest with
  | nil =>
    rw [show collapseNlAux 0 ([] : List Char) = [] from rfl] at h
    exact List.noConfusion h
  | cons a r =>
    by_cases ha : a = '\n'
    · subst ha
      rw [show collapseNlAux 0 ('\n' :: r) = '\n' :: collapseNlAux 1 r from rfl] at h
      injection h with h1 h2
      exact absurd h1.symm hc
    · rw [collapseNlAux.eq_2 0 a r fun hh => ha hh] at h
      injection h with h1 h2
      subst h1
      subst h2
      exact ⟨r, rfl, rfl⟩

lemma noCdata_collapse (run : Nat) (l : List Char) :
    noCdata l = true → noCdata (collapseNlAux run l) = true := by
  induction run, l using collapseNlAux.induct with
  | case1 run rest hrun ih =>
    intro h
    rw [show collapseNlAux run ('\n' :: rest)
        = if run ≥ 2 then collapseNlAux run rest else '\n' :: collapseNlAux (run + 1) rest
        from rfl, if_pos hrun]
    exact ih (noCdata_tail '\n' rest h)
  | case2 run rest hrun ih =>
    intro h
    rw [show collapseNlAux run ('\n' :: rest)
        = if run ≥ 2 then collapseNlAux run rest else '\n' :: collapseNlAux (run + 1) rest
        from rfl, if_neg hrun]
    rw [noCdata_cons '\n' (collapseNlAux (run + 1) rest) rfl]
    exact ih (noCdata_tail '\n' rest h)
  | case3 x c rest hc ih =>
    intro h
    rw [collapseNlAux.eq_2 x c rest hc]
    have hguard : ∀ l2, c = ']' → collapseNlAux 0 rest = ']' :: '>' :: l2 → False := by
      intro l2 hcc hcol
      obtain ⟨r2, hr2, hcol2⟩ := collapse0_cons_eq rest ']' ('>' :: l2) (by decide) hcol
      obtain ⟨r3, hr3, hcol3⟩ := collapse0_cons_eq r2 '>' l2 (by decide) hcol2
      subst hcc
      rw [hr2, hr3] at h
      exact Bool.noConfusion h
    rw [noCdata.eq_2 c (collapseNlAux 0 rest) hguard]
    exact ih (noCdata_tail c rest h)
  | case4 x =>
    intro h
    exact h

lemma noTripleAux_collapse (run : Nat) (l : List Char) :
    noTripleAux run (collapseNlAux run l) = true := by
  induction run, l using collapseNlAux.induct with
  | case1 run rest hrun ih =>
    rw [show collapseNlAux run ('\n' :: rest)
        = if run ≥ 2 then collapseNlAux run rest else '\n' :: collapseNlAux (run + 1) rest
        from rfl, if_pos hrun]
    exact ih
  | case2 run rest hrun ih =>
    rw [show collapseNlAux run ('\n' :: rest)
        = if run ≥ 2 then collapseNlAux run rest else '\n' :: collapseNlAux (run + 1) rest
        from rfl, if_neg hrun]
    rw [show noTripleAux run ('\n' :: collapseNlAux (run + 1) rest)
        = if run ≥ 2 then false else noTripleAux (run + 1) (collapseNlAux (run + 1) rest)
        from rfl, if_neg hrun]
    exact ih
  | case3 x c rest hc ih =>
    rw [collapseNlAux.eq_2 x c rest hc, noTripleAux.eq_2 x c (collapseNlAux 0 rest) hc]
    exact ih
  | case4 x =>
    rw [show collapseNlAux x [] = [] from rfl]
    rfl

lemma collapse_id (run : Nat) (l : List Char) :
    noTripleAux run l = true → collapseNlAux run l = l := by
  induction run, l using noTripleAux.induct with
  | case1 run rest hrun =>
    intro h
    rw [show noTripleAux run ('\n' :: rest)
        = if run ≥ 2 then false else noTripleAux (run + 1) rest from rfl, if_pos hrun] at h
    exact Bool.noConfusion h
  | case2 run rest hrun ih =>
    intro h
    rw [show noTripleAux run ('\n' :: rest)
        = if run ≥ 2 then false else noTripleAux (run + 1) rest from rfl, if_neg hrun] at h
    rw [show collapseNlAux run ('\n' :: rest)
        = if run ≥ 2 then collapseNlAux run rest else '\n' :: collapseNlAux (run + 1) rest
        from rfl, if_neg hrun, ih h]
  | case3 x c rest hc ih =>
    intro h
    rw [noTripleAux.eq_2 x c rest hc] at h
    rw [collapseNlAux.eq_2 x c rest hc, ih h]
  | case4 x =>
    intro h
    rfl

/-- C8 amended: the sanitizer is idempotent on every input whose sanitized
form does not exceed the `MAX_COMMAND_LENGTH` clamp: its output then
contains no CDATA closer and no newline triple, so a second pass changes
nothing.  On longer inputs idempotence fails (see the counterexample),
because the `]]>` replacement can push the already-clamped output back
over the clamp. -/
theorem c8_sanitize_idempotent_on_short_output :
    ∀ s : String, (sanitizeForPrompt s).length ≤ MAX_COMMAND_LENGTH →
      sanitizeForPrompt (sanitizeForPrompt s) = sanitizeForPrompt s := by
  intro s hlen
  have hnc : noCdata (sanitizeL s.data) = true :=
    noCdata_collapse 0 (replCdata (truncClamp s.data)) (noCdata_replCdata (truncClamp s.data))
  have hnt : noTripleAux 0 (sanitizeL s.data) = true :=
    noTripleAux_collapse 0 (replCdata (truncClamp s.data))
  have hlen2 : ¬ (sanitizeL s.data).length > MAX_COMMAND_LENGTH := Nat.not_lt.mpr hlen
  have htr : truncClamp (sanitizeL s.data) = sanitizeL s.data := if_neg hlen2
  have hfix : sanitizeL (sanitizeL s.data) = sanitizeL s.data := by
    show collapseNlAux 0 (replCdata (truncClamp (sanitizeL s.data))) = sanitizeL s.data
    rw [htr, replCdata_id _ hnc]
    exact collapse_id 0 _ hnt
  show (⟨sanitizeL (sanitizeL s.data)⟩ : String) = ⟨sanitizeL s.data⟩
  rw [hfix]

/-- C8 witness: the amended theorem applied to a short string containing
both a CDATA closer and a five-newline run. -/
theorem c8_sanitize_idempotent_on_short_output_witness :
    (sanitizeForPrompt "ab ]]> cd\n\n\n\n\nef").length ≤ MAX_COMMAND_LENGTH ∧
    sanitizeForPrompt (sanitizeForPrompt "ab ]]> cd\n\n\n\n\nef")
      = sanitizeForPrompt "ab ]]> cd\n\n\n\n\nef" :=
  ⟨by decide, c8_sanitize_idempotent_on_short_output "ab ]]> cd\n\n\n\n\nef" (by decide)⟩

lemma replCdata_unit (T : List Char) :
    replCdata (']' :: ']' :: '>' :: T)
      = ']' :: ']' :: '&' :: 'g' :: 't' :: ';' :: replCdata T := rfl

lemma noCdata_vunit (T : List Char) :
    noCdata (']' :: ']' :: '&' :: 'g' :: 't' :: ';' :: T) = noCdata T := rfl

lemma noTripleAux_vunit (run : Nat) (T : List Char) :
    noTripleAux run (']' :: ']' :: '&' :: 'g' :: 't' :: ';' :: T) = noTripleAux 0 T := rfl

lemma repl_units (n : Nat) (T : List Char) :
    replCdata ((List.replicate n (']' :: ']' :: '>' :: ([] : List Char))).flatten ++ T)
      = (List.replicate n (']' :: ']' :: '&' :: 'g' :: 't' :: ';' :: ([] : List Char))).flatten
        ++ replCdata T := by
  induction n with
  | zero => simp
  | succ m ih =>
    rw [List.replicate_succ, List.replicate_succ, List.flatten_cons, List.flatten_cons,
        List.append_assoc, List.append_assoc]
    rw [show (']' :: ']' :: '>' :: ([] : List Char))
          ++ ((List.replicate m (']' :: ']' :: '>' :: ([] : List Char))).flatten ++ T)
        = ']' :: ']' :: '>'
          :: ((List.replicate m (']' :: ']' :: '>' :: ([] : List Char))).flatten ++ T) from rfl]
    rw [replCdata_unit, ih]
    rfl

lemma noCdata_units (n : Nat) (T : List Char) :
    noCdata ((List.replicate n (']' :: ']' :: '&' :: 'g' :: 't' :: ';' :: ([] : List Char))).flatten
      ++ T) = noCdata T := by
  induction n with
  | zero => simp
  | succ m ih =>
    rw [List.replicate_succ, List.flatten_cons, List.append_assoc]
    rw [show (']' :: ']' :: '&' :: 'g' :: 't' :: ';' :: ([] : List Char))
          ++ ((List.replicate m
                (']' :: ']' :: '&' :: 'g' :: 't' :: ';' :: ([] : List Char))).flatten ++ T)
        = ']' :: ']' :: '&' :: 'g' :: 't' :: ';'
          :: ((List.replicate m
                (']' :: ']' :: '&' :: 'g' :: 't' :: ';' :: ([] : List Char))).flatten ++ T) from rfl]
    rw [noCdata_vunit]
    exact ih

lemma noTripleAux_of_no_nl (l : List Char) (h : ∀ c ∈ l, ¬ c = '\n') (run : Nat) :
    noTripleAux run l = true := by
  induction l generalizing run with
  | nil => rfl
  | cons c rest ih =>
    rw [noTripleAux.eq_2 run c rest (h c (List.mem_cons_self c rest))]
    exact ih (fun d hd => h d (List.mem_cons_of_mem c hd)) 0

lemma noTripleAux_vjoin (n : Nat) (T : List Char) (h : noTripleAux 0 T = true) :
    noTripleAux 0
      ((List.replicate n (']' :: ']' :: '&' :: 'g' :: 't' :: ';' :: ([] : List Char))).flatten ++ T)
      = true := by
  induction n with
  | zero => simpa using h
  | succ m ih =>
    rw [List.replicate_succ, List.flatten_cons, List.append_assoc]
    rw [show (']' :: ']' :: '&' :: 'g' :: 't' :: ';' :: ([] : List Char))
          ++ ((List.replicate m
                (']' :: ']' :: '&' :: 'g' :: 't' :: ';' :: ([] : List Char))).flatten ++ T)
        = ']' :: ']' :: '&' :: 'g' :: 't' :: ';'
          :: ((List.replicate m
                (']' :: ']' :: '&' :: 'g' :: 't' :: ';' :: ([] : List Char))).flatten ++ T) from rfl]
    rw [noTripleAux_vunit]
    exact ih

lemma replCdata_replicate_a (n : Nat) :
    replCdata (List.replicate n 'a') = List.replicate n 'a' := by
  induction n with
  | zero => rfl
  | succ m ih => rw [List.replicate_succ, replCdata_cons 'a' _ rfl, ih]

lemma len_join_replicate (n : Nat) (w : List Char) :
    ((List.replicate n w).flatten).length = n * w.length := by
  induction n with
  | zero => simp
  | succ m ih =>
    rw [List.replicate_succ, List.flatten_cons, List.length_append, ih]
    ring

set_option maxRecDepth 4000 in
/-- C8 counterexample: on the 2000-character input of 334 CDATA closers
followed by 998 letters, the first sanitizer pass expands every closer
and returns 3002 characters; the second pass clamps that output to 2000
characters plus the truncation marker, 2015 characters in all, so the
sanitizer is not idempotent on inputs longer than the clamp. -/
theorem c8_long_input_not_idempotent_counterexample :
    sanitizeForPrompt (sanitizeForPrompt
        ⟨(List.replicate 334 (']' :: ']' :: '>' :: ([] : List Char))).flatten
          ++ List.replicate 998 'a'⟩)
      ≠ sanitizeForPrompt
        ⟨(List.replicate 334 (']' :: ']' :: '>' :: ([] : List Char))).flatten
          ++ List.replicate 998 'a'⟩ := by
  intro h
  have hXlen : ((List.replicate 334 (']' :: ']' :: '>' :: ([] : List Char))).flatten
      ++ List.replicate 998 'a').length = 2000 := by
    rw [List.length_append, len_join_replicate, List.length_replicate]
    decide
  have hgt : ¬ ((List.replicate 334 (']' :: ']' :: '>' :: ([] : List Char))).flatten
      ++ List.replicate 998 'a').length > MAX_COMMAND_LENGTH := by
    rw [hXlen]
    decide
  have htrX : truncClamp ((List.replicate 334 (']' :: ']' :: '>' :: ([] : List Char))).flatten
      ++ List.replicate 998 'a')
      = (List.replicate 334 (']' :: ']' :: '>' :: ([] : List Char))).flatten
        ++ List.replicate 998 'a' := if_neg hgt
  have hno_nl_a : ∀ c ∈ List.replicate 998 'a', ¬ c = '\n' := by
    intro c hc
    rw [List.eq_of_mem_replicate hc]
    decide
  have hcoll : collapseNlAux 0
      ((List.replicate 334 (']' :: ']' :: '&' :: 'g' :: 't' :: ';' :: ([] : List Char))).flatten
        ++ List.replicate 998 'a')
      = (List.replicate 334 (']' :: ']' :: '&' :: 'g' :: 't' :: ';' :: ([] : List Char))).flatten
        ++ List.replicate 998 'a' :=
    collapse_id 0 _ (noTripleAux_vjoin 334 _ (noTripleAux_of_no_nl _ hno_nl_a 0))
  have hsanX : sanitizeL ((List.replicate 334 (']' :: ']' :: '>' :: ([] : List Char))).flatten
      ++ List.replicate 998 'a')
      = (List.replicate 334 (']' :: ']' :: '&' :: 'g' :: 't' :: ';' :: ([] : List Char))).flatten
        ++ List.replicate 998 'a' := by
    show collapseNlAux 0 (replCdata (truncClamp _)) = _
    rw [htrX, repl_units, replCdata_replicate_a]
    exact hcoll
  have hYlen : ((List.replicate 334
      (']' :: ']' :: '&' :: 'g' :: 't' :: ';' :: ([] : List Char))).flatten
      ++ List.replicate 998 'a').length = 3002 := by
    rw [List.length_append, len_join_replicate, List.length_replicate]
    decide
  have hB : (List.replicate 334
      (']' :: ']' :: '&' :: 'g' :: 't' :: ';' :: ([] : List Char))).flatten
      = (List.replicate 333 (']' :: ']' :: '&' :: 'g' :: 't' :: ';' :: ([] : List Char))).flatten
        ++ (']' :: ']' :: '&' :: 'g' :: 't' :: ';' :: ([] : List Char)) := by
    rw [show (334 : Nat) = 333 + 1 from rfl, List.replicate_succ', List.flatten_append]
    rw [show (((']' :: ']' :: '&' :: 'g' :: 't' :: ';' :: ([] : List Char))
          :: ([] : List (List Char))).flatten)
        = (']' :: ']' :: '&' :: 'g' :: 't' :: ';' :: ([] : List Char)) ++ ([] : List Char)
        from rfl, List.append_nil]
  have hlen333 : ((List.replicate 333
      (']' :: ']' :: '&' :: 'g' :: 't' :: ';' :: ([] : List Char))).flatten).length = 1998 := by
    rw [len_join_replicate]
    decide
  have htake : ((List.replicate 334
      (']' :: ']' :: '&' :: 'g' :: 't' :: ';' :: ([] : List Char))).flatten
      ++ List.replicate 998 'a').take 2000
      = (List.replicate 333 (']' :: ']' :: '&' :: 'g' :: 't' :: ';' :: ([] : List Char))).flatten
        ++ [']', ']'] := by
    rw [hB, List.append_assoc, List.take_append_eq_append_take,
        List.take_of_length_le (by rw [hlen333]; decide), hlen333]
    rfl
  have hnc2 : noCdata ((List.replicate 333
      (']' :: ']' :: '&' :: 'g' :: 't' :: ';' :: ([] : List Char))).flatten
      ++ (']' :: ']' :: "... [truncated]".data)) = true := by
    rw [noCdata_units]
    decide
  have hnt2 : noTripleAux 0 ((List.replicate 333
      (']' :: ']' :: '&' :: 'g' :: 't' :: ';' :: ([] : List Char))).flatten
      ++ (']' :: ']' :: "... [truncated]".data)) = true :=
    noTripleAux_vjoin 333 _ (by decide)
  have hsan2 : sanitizeL ((List.replicate 334
      (']' :: ']' :: '&' :: 'g' :: 't' :: ';' :: ([] : List Char))).flatten
      ++ List.replicate 998 'a')
      = (List.replicate 333 (']' :: ']' :: '&' :: 'g' :: 't' :: ';' :: ([] : List Char))).flatten
        ++ (']' :: ']' :: "... [truncated]".data) := by
    show collapseNlAux 0 (replCdata (truncClamp _)) = _
    rw [show truncClamp ((List.replicate 334
          (']' :: ']' :: '&' :: 'g' :: 't' :: ';' :: ([] : List Char))).flatten
          ++ List.replicate 998 'a')
        = ((List.replicate 334
            (']' :: ']' :: '&' :: 'g' :: 't' :: ';' :: ([] : List Char))).flatten
            ++ List.replicate 998 'a').take MAX_COMMAND_LENGTH ++ "... [truncated]".data
        from if_pos (by rw [hYlen]; decide)]
    rw [show MAX_COMMAND_LENGTH = 2000 from rfl, htake, List.append_assoc]
    rw [show ([']', ']'] ++ "... [truncated]".data)
        = ']' :: ']' :: "... [truncated]".data from rfl]
    rw [replCdata_id _ hnc2]
    exact collapse_id 0 _ hnt2
  have hZlen : ((List.replicate 333
      (']' :: ']' :: '&' :: 'g' :: 't' :: ';' :: ([] : List Char))).flatten
      ++ (']' :: ']' :: "... [truncated]".data)).length = 2015 := by
    rw [List.length_append, hlen333]
    decide
  have hkey : ∀ t : String, (sanitizeForPrompt t).data = sanitizeL t.data := fun t => rfl
  have hX : (⟨(List.replicate 334 (']' :: ']' :: '>' :: ([] : List Char))).flatten
        ++ List.replicate 998 'a'⟩ : String).data
      = (List.replicate 334 (']' :: ']' :: '>' :: ([] : List Char))).flatten
        ++ List.replicate 998 'a' := rfl
  have hd2 := congrArg String.data h
  rw [hkey, hkey, hX, hsanX, hsan2] at hd2
  have hlen := congrArg List.length hd2
  rw [hZlen, hYlen] at hlen
  exact absurd hlen (by decide)
